import Mathlib

/-!
The statistics merge, the option validation and the report of queryperf++.

A shallow embedding of `src/bin/queryperfpp/queryperfpp.cc`.

* `size_t` counters are natural numbers.  They count the queries of one run;
  the additions of `accumulateResult` are not reduced modulo the word size.
  The one subtraction on them (`lost_count` in `main`) is modelled with its
  unsigned wrap-around.
* `double` values (latencies, percentages, bucket bounds) are exact rationals.
* C arrays are lists; `a[i]` is `List.getD a i _` and `a[i] = v` is
  `List.set a i v`.  An index outside the array is undefined behaviour in the
  source; the statements below carry the array lengths they need.
-/

namespace Queryperf

/-! ## Constants of `dispatcher.h` -/

/-- Modelled from the spec: `dispatcher.h` is missing; the spec gives
`CATEGORY_COUNT = 2` (success, failure) for the size of `categories`. -/
def CATEGORY_MAX : Nat := 2

/-- Modelled from the spec: `dispatcher.h` is missing; `Dispatcher::MAX_RCODE`
is the size of `rcodes`, and the spec's glossary describes the RCODE as a 4-bit
field, which has 16 values. -/
def MAX_RCODE : Nat := 16

/-! ## Data model -/

/-- The `struct histogram_bucket` of `dispatcher.h`: one counter per category. -/
structure histogram_bucket where
  categories : List Nat
deriving DecidableEq, Repr

/-- The bucket left by `memset(bucket, 0, sizeof(struct histogram_bucket))`. -/
def histogram_bucket.zero : histogram_bucket :=
  { categories := List.replicate CATEGORY_MAX 0 }

instance : Inhabited histogram_bucket := ⟨histogram_bucket.zero⟩

/-- The statistics a `Dispatcher` exposes through its getters once its thread
has been joined (the per-worker statistics). -/
structure Dispatcher where
  getQueriesSent : Nat
  getQueriesCompleted : Nat
  getRcodes : List Nat
  getSumLatency : ℚ
  getFastestLatency : ℚ
  getSlowestLatency : ℚ
  getBuckets : List histogram_bucket
deriving DecidableEq

/-- The `struct QueryStatistics` of the source.  The three used entries of
`latency[LT_MAX]` are separate fields; `histogram_bps` is kept as the exact
quotient `histogram_nbuckets / histogram_time`; `qps_results` is never written
by the source and stays empty. -/
structure QueryStatistics where
  queries_sent : Nat
  queries_completed : Nat
  rcodes : List Nat
  histogram_nbuckets : Nat
  histogram_time : Nat
  histogram_bps : ℚ
  histogram_buckets : List histogram_bucket
  latency_LT_SUM : ℚ
  latency_LT_FASTEST : ℚ
  latency_LT_SLOWEST : ℚ
  qps_results : List ℚ
deriving DecidableEq

/-- The constructor `QueryStatistics(nbuckets, time)`: every counter and every
latency entry is zeroed, and `nbuckets + 1` zeroed buckets are pushed
(`for (i = 0; i <= histogram_nbuckets; ++i)`).  Its `assert(0 < time)` holds at
the one call, in `main` (see `validate_histogram_time_pos`). -/
def QueryStatistics.new (nbuckets time : Nat) : QueryStatistics :=
  { queries_sent := 0
    queries_completed := 0
    rcodes := List.replicate MAX_RCODE 0
    histogram_nbuckets := nbuckets
    histogram_time := time
    histogram_bps := (nbuckets : ℚ) / (time : ℚ)
    histogram_buckets :=
      (List.range (nbuckets + 1)).foldl (fun v _ => v ++ [histogram_bucket.zero]) []
    latency_LT_SUM := 0
    latency_LT_FASTEST := 0
    latency_LT_SLOWEST := 0
    qps_results := [] }

/-! ## `accumulateResult` -/

/-- The loop `for (i = 0; i < n; ++i) r[i] += d[i];` over two counter arrays. -/
def addCounters (n : Nat) (r d : List Nat) : List Nat :=
  (List.range n).foldl (fun acc i => acc.set i (acc.getD i 0 + d.getD i 0)) r

/-- The nested loop of `accumulateResult` over the histogram:
`for (i = 0; i <= nbuckets; ++i) for (k = 0; k < CATEGORY_MAX; ++k)
   r[i]->categories[k] += d[i]->categories[k];` -/
def addBuckets (nbuckets : Nat) (r d : List histogram_bucket) : List histogram_bucket :=
  (List.range (nbuckets + 1)).foldl
    (fun acc i =>
      acc.set i
        { categories :=
            addCounters CATEGORY_MAX (acc.getD i default).categories
              (d.getD i default).categories })
    r

/-- The effect of `accumulateResult(disp, result)` on `result`.  The value the
function returns (the worker's own queries per second, a floating-point
quotient that `main` only prints) is not part of the merged statistics and is
left out. -/
def accumulateResult (disp : Dispatcher) (result : QueryStatistics) : QueryStatistics :=
  { result with
    queries_sent := result.queries_sent + disp.getQueriesSent
    queries_completed := result.queries_completed + disp.getQueriesCompleted
    rcodes := addCounters MAX_RCODE result.rcodes disp.getRcodes
    latency_LT_SUM := result.latency_LT_SUM + disp.getSumLatency
    latency_LT_FASTEST :=
      if result.latency_LT_FASTEST > disp.getFastestLatency then disp.getFastestLatency
      else result.latency_LT_FASTEST
    latency_LT_SLOWEST :=
      if result.latency_LT_SLOWEST < disp.getSlowestLatency then disp.getSlowestLatency
      else result.latency_LT_SLOWEST
    histogram_buckets :=
      addBuckets result.histogram_nbuckets result.histogram_buckets disp.getBuckets }

/-- The accumulation loop of `main`: a fresh `QueryStatistics result(nbuckets,
time)` into which `accumulateResult` merges the dispatchers in index order. -/
def accumulateAll (nbuckets time : Nat) (disps : List Dispatcher) : QueryStatistics :=
  disps.foldl (fun result disp => accumulateResult disp result)
    (QueryStatistics.new nbuckets time)

/-! ## Defaults and the environment of `main` -/

/-- Modelled from the spec: `Dispatcher::DEFAULT_PORT` is declared in the
missing `dispatcher.h`; the spec's option table gives 53 for `-p`. -/
def DEFAULT_PORT : Nat := 53

/-- Modelled from the spec: `Dispatcher::DEFAULT_DURATION` is declared in the
missing `dispatcher.h`; the spec's option table gives 30 seconds for `-l`. -/
def DEFAULT_DURATION : Nat := 30

/-- Modelled from the spec: `Dispatcher::DEFAULT_SERVER` is declared in the
missing `dispatcher.h`; the spec's option table gives `127.0.0.1` for `-s`. -/
def DEFAULT_SERVER : String := "127.0.0.1"

def DEFAULT_THREAD_COUNT : Nat := 1
def DEFAULT_CLASS : String := "IN"
def DEFAULT_DNSSEC : Bool := true
def DEFAULT_EDNS : Bool := true
def DEFAULT_DATA_FILE : String := "-"
def DEFAULT_PROTOCOL : String := "udp"
def DEFAULT_BUCKETS : Nat := 200
def DEFAULT_HISTOGRAM_TIME : Nat := 1

/-- The value of `IPPROTO_UDP` in `<netinet/in.h>`. -/
def IPPROTO_UDP : Nat := 17

/-- The value of `IPPROTO_TCP` in `<netinet/in.h>`. -/
def IPPROTO_TCP : Nat := 6

/-- One past the largest `size_t` (a 64-bit word). -/
def SIZE_MOD : Nat := 2 ^ 64

/-- How a call of `Dispatcher::run` ends. -/
inductive RunOutcome where
  | returned
  | std_exception (what : String)
  | other_exception
deriving DecidableEq, Repr

/-- What `main` cannot compute by itself: the library conversions, the
behaviour of the `Dispatcher` objects and of the thread library.  Dispatchers
and threads are named by their index `i` in `main`. -/
structure Env where
  /-- The conversion `boost::lexical_cast<size_t>`; `none` when it throws
  `bad_lexical_cast`. -/
  lexical_cast_size_t : String → Option Nat
  /-- The conversion `boost::lexical_cast<uint16_t>`; `none` when it throws. -/
  lexical_cast_uint16_t : String → Option Nat
  /-- Whether constructing, configuring or preloading dispatcher `i` throws a
  `std::exception`. -/
  dispatcher_throws : Nat → Bool
  /-- The error number `pthread_create` returns for thread `i`. -/
  pthread_create : Nat → Nat
  /-- How `Dispatcher::run` of dispatcher `i` ends. -/
  run : Nat → RunOutcome
  /-- The statistics dispatcher `i` holds once the threads have been joined. -/
  dispatchers : Nat → Dispatcher

/-! ## Command-line options -/

/-- The local variables of `main` that the `getopt` loop assigns. -/
structure Options where
  count_rcode : Bool
  print_args : Bool
  qclass_txt : String
  data_file : Option String
  dnssec_flag_txt : Option String
  edns_flag_txt : Option String
  server_address : String
  proto_txt : String
  server_port_str : String
  time_limit_str : String
  num_threads_txt : Option String
  histogram_nbuckets_txt : Option String
  histogram_time_txt : Option String
  query_txt : Option String
  qps_txt : Option String
  preload : Bool
deriving DecidableEq, Repr

/-- The initial values of these variables (source lines 276-296). -/
def Options.init : Options :=
  { count_rcode := false
    print_args := false
    qclass_txt := DEFAULT_CLASS
    data_file := none
    dnssec_flag_txt := none
    edns_flag_txt := none
    server_address := DEFAULT_SERVER
    proto_txt := DEFAULT_PROTOCOL
    server_port_str := toString DEFAULT_PORT
    time_limit_str := toString DEFAULT_DURATION
    num_threads_txt := none
    histogram_nbuckets_txt := none
    histogram_time_txt := none
    query_txt := none
    qps_txt := none
    preload := false }

/-- The `switch (ch)` of the `getopt` loop; `none` stands for `usage()`, which
calls `exit(1)`. -/
def getoptStep (o : Options) (ch : Char) (optarg : String) : Option Options :=
  match ch with
  | 'C' => some { o with qclass_txt := optarg }
  | 'd' => some { o with data_file := some optarg }
  | 'D' => some { o with dnssec_flag_txt := some optarg }
  | 'e' => some { o with edns_flag_txt := some optarg }
  | 'A' => some { o with print_args := true }
  | 'n' => some { o with num_threads_txt := some optarg }
  | 's' => some { o with server_address := optarg }
  | 'p' => some { o with server_port_str := optarg }
  | 'P' => some { o with proto_txt := optarg }
  | 'q' => some { o with query_txt := some optarg }
  | 'Q' => some { o with qps_txt := some optarg }
  | 'l' => some { o with time_limit_str := optarg }
  | 'L' => some { o with preload := true }
  | 'c' => some { o with count_rcode := true }
  | 'H' => some { o with histogram_nbuckets_txt := some optarg }
  | 'T' => some { o with histogram_time_txt := some optarg }
  | _ => none

/-- The `while ((ch = getopt(...)) != -1)` loop over the options `getopt`
yields, each with its `optarg`. -/
def getoptLoop (o : Options) : List (Char × String) → Option Options
  | [] => some o
  | (ch, optarg) :: rest =>
    match getoptStep o ch optarg with
    | none => none
    | some o' => getoptLoop o' rest

/-- The function `parseOnOffFlag`; `none` stands for its `exit(1)`. -/
def parseOnOffFlag (optarg : Option String) (default_val : Bool) : Option Bool :=
  match optarg with
  | some a =>
    if a = "on" then some true
    else if a = "off" then some false
    else none
  | none => some default_val

/-- The pattern `if (txt != NULL) { v = lexical_cast<size_t>(txt); }` of `main`;
`none` when the conversion throws. -/
def castOr (env : Env) (txt : Option String) (v : Nat) : Option Nat :=
  match txt with
  | none => some v
  | some t => env.lexical_cast_size_t t

/-- The values `main` holds when it reaches the `// Prepare` comment. -/
structure Settings where
  options : Options
  data_file : Option String
  dnssec_flag : Bool
  edns_flag : Bool
  proto : Nat
  num_threads : Nat
  histogram_nbuckets : Nat
  histogram_time : Nat
  qps : Nat
deriving DecidableEq, Repr

/-- Whether `main` writes the `[WARN] EDNS is disabled but DNSSEC is enabled`
line: the condition `!edns_flag && dnssec_flag`. -/
def warns (edns_flag dnssec_flag : Bool) : Bool := !edns_flag && dnssec_flag

/-- Source lines 357-359 of `main`: `data_file` after
`if (data_file == NULL && query_txt == NULL) data_file = DEFAULT_DATA_FILE;`. -/
def effectiveDataFile (o : Options) : Option String :=
  if o.data_file = none ∧ o.query_txt = none then some DEFAULT_DATA_FILE else o.data_file

/-- Source lines 360-409 of `main`: the validation of the options.
`Except.error w` is an exit with status 1 (`return (1)`, `exit(1)`, or a
`bad_lexical_cast` caught by the handler at the end of `main`), `w` telling
whether the warning had been written before. -/
def validate (env : Env) (o : Options) : Except Bool Settings :=
  let data_file := effectiveDataFile o
  if data_file ≠ none ∧ o.query_txt ≠ none then Except.error false
  else
    match parseOnOffFlag o.dnssec_flag_txt DEFAULT_DNSSEC with
    | none => Except.error false
    | some dnssec_flag =>
      match parseOnOffFlag o.edns_flag_txt DEFAULT_EDNS with
      | none => Except.error false
      | some edns_flag =>
        let w := warns edns_flag dnssec_flag
        if o.proto_txt ≠ "udp" ∧ o.proto_txt ≠ "tcp" then Except.error w
        else
          let proto := if o.proto_txt = "udp" then IPPROTO_UDP else IPPROTO_TCP
          match castOr env o.num_threads_txt DEFAULT_THREAD_COUNT with
          | none => Except.error w
          | some num_threads =>
            if num_threads > 1 ∧ data_file = some "-" then Except.error w
            else
              match castOr env o.histogram_nbuckets_txt DEFAULT_BUCKETS with
              | none => Except.error w
              | some histogram_nbuckets =>
                match castOr env o.histogram_time_txt DEFAULT_HISTOGRAM_TIME with
                | none => Except.error w
                | some histogram_time =>
                  if o.histogram_time_txt ≠ none ∧ histogram_time = 0 then Except.error w
                  else
                    match castOr env o.qps_txt 0 with
                    | none => Except.error w
                    | some qps =>
                      Except.ok
                        { options := o
                          data_file := data_file
                          dnssec_flag := dnssec_flag
                          edns_flag := edns_flag
                          proto := proto
                          num_threads := num_threads
                          histogram_nbuckets := histogram_nbuckets
                          histogram_time := histogram_time
                          qps := qps }

/-! ## Preparing and running the dispatchers -/

/-- The calls `main` makes on one dispatcher in the `// Prepare` loop. -/
structure DispatcherConfig where
  /-- The constructor argument: `Sum.inl` the data file, `Sum.inr` the text of `-q`. -/
  input : String ⊕ String
  setServerAddress : String
  setServerPort : Nat
  setTestDuration : Nat
  setDefaultQueryClass : String
  setDNSSEC : Bool
  setEDNS : Bool
  setProtocol : Nat
  setHistogramInput : Nat × Nat
  setQPS : Nat
  loadQueries : Bool
deriving DecidableEq, Repr

/-- The body of the `// Prepare` loop for dispatcher `i`; `none` when it throws
(caught by the handler at the end of `main`). -/
def configureDispatcher (env : Env) (s : Settings) (i : Nat) : Option DispatcherConfig :=
  if env.dispatcher_throws i then none
  else
    match env.lexical_cast_uint16_t s.options.server_port_str,
          env.lexical_cast_size_t s.options.time_limit_str with
    | some port, some duration =>
      some
        { input :=
            match s.data_file with
            | some f => Sum.inl f
            | none => Sum.inr (s.options.query_txt.getD "")
          setServerAddress := s.options.server_address
          setServerPort := port
          setTestDuration := duration
          setDefaultQueryClass := s.options.qclass_txt
          setDNSSEC := s.dnssec_flag
          setEDNS := s.edns_flag
          setProtocol := s.proto
          setHistogramInput := (s.histogram_nbuckets, s.histogram_time)
          setQPS := s.qps / s.num_threads
          loadQueries := s.options.preload }
    | _, _ => none

/-- The `// Prepare` loop `for (i = 0; i < num_threads; ++i)`: the dispatchers
configured so far, and whether no iteration has thrown. -/
def prepare (env : Env) (s : Settings) : List DispatcherConfig × Bool :=
  (List.range s.num_threads).foldl
    (fun st i =>
      if st.2 then
        match configureDispatcher env s i with
        | some c => (st.1 ++ [c], true)
        | none => (st.1, false)
      else st)
    ([], true)

/-- The thread-creation loop: the threads created so far, and whether no
`pthread_create` has failed (a failure throws `std::runtime_error`). -/
def createThreads (env : Env) (num_threads : Nat) : List Nat × Bool :=
  (List.range num_threads).foldl
    (fun st i =>
      if st.2 then
        if env.pthread_create i ≠ 0 then (st.1, false) else (st.1 ++ [i], true)
      else st)
    ([], true)

/-- How a thread that runs `runQueryperf` ends. -/
inductive ThreadEnd where
  /-- The function returned `NULL`, after writing the given line to `cerr`
  when it caught an exception. -/
  | returned (cerr : Option String)
  /-- The exception left `runQueryperf`: the process is terminated. -/
  | uncaught
deriving DecidableEq, Repr

/-- The function `runQueryperf`: `disp->run()` inside
`try { } catch (const std::exception& ex)`. -/
def runQueryperf (outcome : RunOutcome) : ThreadEnd :=
  match outcome with
  | RunOutcome.returned => ThreadEnd.returned none
  | RunOutcome.std_exception what =>
    ThreadEnd.returned (some ("Worker thread died unexpectedly: " ++ what))
  | RunOutcome.other_exception => ThreadEnd.uncaught

/-! ## The report -/

/-- The subtraction of two `size_t` values (both below `SIZE_MOD`). -/
def size_t_sub (a b : Nat) : Nat := (a + SIZE_MOD - b) % SIZE_MOD

/-- The value after `Percentage completed:`; `none` is the text `N/A`. -/
def percentage_completed (result : QueryStatistics) : Option ℚ :=
  if result.queries_sent > 0 then
    some ((result.queries_completed : ℚ) / (result.queries_sent : ℚ) * 100)
  else none

/-- The variable `lost_count` of `main`. -/
def lost_count (result : QueryStatistics) : Nat :=
  size_t_sub result.queries_sent result.queries_completed

/-- The value after `Percentage lost:`; `none` is the text `N/A`. -/
def percentage_lost (result : QueryStatistics) : Option ℚ :=
  if result.queries_sent > 0 then
    some ((lost_count result : ℚ) / (result.queries_sent : ℚ) * 100)
  else none

/-- One call of `print_bucket`: the label `op`, the `time` printed after it and
the counters of the bucket.  The percentage and bar columns, computed from the
counters and `maxval`, are not modelled. -/
structure HistogramRow where
  op : String
  time : ℚ
  categories : List Nat
deriving DecidableEq

/-- The bucket rows `print_histogram` prints, in the order of its second loop:
none when `histogram_nbuckets == 0`, otherwise one for each `i` from 0 to
`histogram_nbuckets`, with `op = ">="` when `i == histogram_nbuckets` and
`time = (i + 1) / histogram_bps`. -/
def print_histogram (result : QueryStatistics) : List HistogramRow :=
  if result.histogram_nbuckets = 0 then []
  else
    (List.range (result.histogram_nbuckets + 1)).map fun i =>
      { op := if i = result.histogram_nbuckets then ">=" else "< "
        time := ((i : ℚ) + 1) / result.histogram_bps
        categories := (result.histogram_buckets.getD i default).categories }

/-- What `main` prints after `Statistics:` as far as it is modelled. -/
structure Report where
  result : QueryStatistics
  percentage_completed : Option ℚ
  percentage_lost : Option ℚ
  histogram : List HistogramRow
deriving DecidableEq

/-- The report `main` prints from the dispatchers `0 .. num_threads - 1`. -/
def makeReport (env : Env) (s : Settings) : Report :=
  let result :=
    accumulateAll s.histogram_nbuckets s.histogram_time
      ((List.range s.num_threads).map env.dispatchers)
  { result := result
    percentage_completed := percentage_completed result
    percentage_lost := percentage_lost result
    histogram := print_histogram result }

/-! ## `main` -/

/-- What is observed of a run of `main`. -/
structure MainResult where
  /-- The exit status; `none` when the process was terminated by an exception
  that left a worker thread. -/
  exit_status : Option Nat
  /-- Whether the `[WARN]` line about EDNS was written. -/
  warned : Bool
  /-- The dispatchers configured in the `// Prepare` loop. -/
  configs : List DispatcherConfig
  /-- The threads created, each running `runQueryperf` (hence
  `Dispatcher::run`) on the dispatcher of the same index. -/
  threads : List Nat
  /-- The lines the worker threads wrote to `cerr`. -/
  worker_cerr : List String
  report : Option Report
deriving DecidableEq

/-- The part of `main` after the validation of the options: the `// Prepare`
loop, the creation of the threads, the joins (a failing `pthread_join` is only
logged, and is not modelled) and the report.  An exception thrown before the
report is caught by the handler at the end of `main`, which returns 1. -/
def mainRun (env : Env) (s : Settings) : MainResult :=
  let w := warns s.edns_flag s.dnssec_flag
  let prepared := prepare env s
  if !prepared.2 then
    { exit_status := some 1, warned := w, configs := prepared.1, threads := [],
      worker_cerr := [], report := none }
  else
    let created := createThreads env s.num_threads
    if !created.2 then
      { exit_status := some 1, warned := w, configs := prepared.1, threads := created.1,
        worker_cerr := [], report := none }
    else
      let ends := created.1.map fun i => runQueryperf (env.run i)
      let cerr := ends.filterMap fun e =>
        match e with
        | ThreadEnd.returned m => m
        | ThreadEnd.uncaught => none
      if ends.any fun e => e = ThreadEnd.uncaught then
        { exit_status := none, warned := w, configs := prepared.1, threads := created.1,
          worker_cerr := cerr, report := none }
      else
        { exit_status := some 0, warned := w, configs := prepared.1, threads := created.1,
          worker_cerr := cerr, report := some (makeReport env s) }

/-- The function `main`, on the options `getopt` yields. -/
def main (env : Env) (opts : List (Char × String)) : MainResult :=
  match getoptLoop Options.init opts with
  | none =>
    { exit_status := some 1, warned := false, configs := [], threads := [],
      worker_cerr := [], report := none }
  | some o =>
    match validate env o with
    | Except.error w =>
      { exit_status := some 1, warned := w, configs := [], threads := [],
        worker_cerr := [], report := none }
    | Except.ok s => mainRun env s

/-! ## Predicates and sample values used by the statements -/

/-- The shape of the statistics of a dispatcher that was configured with
`setHistogramInput(nbuckets, _)`: `MAX_RCODE` response-code counters and
`nbuckets + 1` buckets of `CATEGORY_MAX` counters each. -/
def Dispatcher.WellFormed (nbuckets : Nat) (d : Dispatcher) : Prop :=
  d.getRcodes.length = MAX_RCODE ∧ d.getBuckets.length = nbuckets + 1 ∧
    ∀ b ∈ d.getBuckets, b.categories.length = CATEGORY_MAX

instance (nbuckets : Nat) (d : Dispatcher) : Decidable (d.WellFormed nbuckets) := by
  unfold Dispatcher.WellFormed
  infer_instance

/-- The shape of a `QueryStatistics`: `MAX_RCODE` response-code counters and
`histogram_nbuckets + 1` buckets of `CATEGORY_MAX` counters each. -/
def QueryStatistics.WellFormed (r : QueryStatistics) : Prop :=
  r.rcodes.length = MAX_RCODE ∧ r.histogram_buckets.length = r.histogram_nbuckets + 1 ∧
    ∀ b ∈ r.histogram_buckets, b.categories.length = CATEGORY_MAX

instance (r : QueryStatistics) : Decidable r.WellFormed := by
  unfold QueryStatistics.WellFormed
  infer_instance

/-- The counter of category `k` in bucket `i` of a histogram. -/
def bucketCount (buckets : List histogram_bucket) (i k : Nat) : Nat :=
  (buckets.getD i default).categories.getD k 0

/-- The sum over the buckets `0 .. nbuckets` and all categories of a histogram. -/
def histogramTotal (nbuckets : Nat) (buckets : List histogram_bucket) : Nat :=
  ((List.range (nbuckets + 1)).map fun i =>
    ((List.range CATEGORY_MAX).map fun k => bucketCount buckets i k).sum).sum

/-- The two invariants of the statistics, on a `QueryStatistics`. -/
def QueryStatistics.Invariant (r : QueryStatistics) : Prop :=
  r.queries_completed ≤ r.queries_sent ∧
    histogramTotal r.histogram_nbuckets r.histogram_buckets = r.queries_completed

/-- The two invariants of the statistics, on the statistics of a worker. -/
def Dispatcher.Invariant (nbuckets : Nat) (d : Dispatcher) : Prop :=
  d.getQueriesCompleted ≤ d.getQueriesSent ∧
    histogramTotal nbuckets d.getBuckets = d.getQueriesCompleted

instance (r : QueryStatistics) : Decidable r.Invariant := by
  unfold QueryStatistics.Invariant
  infer_instance

instance (nbuckets : Nat) (d : Dispatcher) : Decidable (d.Invariant nbuckets) := by
  unfold Dispatcher.Invariant
  infer_instance

/-- The least element of the non-empty list `x :: xs`. -/
def minimumOf (x : ℚ) (xs : List ℚ) : ℚ := xs.foldl min x

/-- The greatest element of the non-empty list `x :: xs`. -/
def maximumOf (x : ℚ) (xs : List ℚ) : ℚ := xs.foldl max x

/-- A command line with a configuration error, on the variables the `getopt`
loop has assigned: (a) both `-d` and `-q` are given, (b) the `-P` argument is
neither `udp` nor `tcp`, (c) the `-D` or the `-e` argument is neither `on` nor
`off`, (d) the worker count is greater than 1 and the input is standard input
(`-d -`, or neither `-d` nor `-q`), (e) `-T` is 0. -/
def ConfigError (env : Env) (o : Options) : Prop :=
  (o.data_file ≠ none ∧ o.query_txt ≠ none) ∨
  (o.proto_txt ≠ "udp" ∧ o.proto_txt ≠ "tcp") ∨
  (∃ a, o.dnssec_flag_txt = some a ∧ a ≠ "on" ∧ a ≠ "off") ∨
  (∃ a, o.edns_flag_txt = some a ∧ a ≠ "on" ∧ a ≠ "off") ∨
  (∃ t n, o.num_threads_txt = some t ∧ env.lexical_cast_size_t t = some n ∧ 1 < n ∧
    (o.data_file = some "-" ∨ (o.data_file = none ∧ o.query_txt = none))) ∨
  (∃ t, o.histogram_time_txt = some t ∧ env.lexical_cast_size_t t = some 0)

/-- A configuration that `main` accepts and whose dispatchers can all be set
up: the `getopt` loop ends with the variables `o`, the validation passes with
the settings `s`, and no iteration of the `// Prepare` loop throws. -/
def ValidConfiguration (env : Env) (opts : List (Char × String)) (o : Options)
    (s : Settings) : Prop :=
  getoptLoop Options.init opts = some o ∧ validate env o = Except.ok s ∧
    ∀ i, i < s.num_threads → (configureDispatcher env s i).isSome = true

/-- A worker with two buckets (`nbuckets = 1`) that sent `sent` queries and
completed `ok + failed` of them, all in bucket 0, each with latency `lat`. -/
def sampleWorker (sent ok failed : Nat) (lat : ℚ) : Dispatcher :=
  { getQueriesSent := sent
    getQueriesCompleted := ok + failed
    getRcodes := [ok, 0, failed, 0, 0, 0, 0, 0, 0, 0, 0, 0, 0, 0, 0, 0]
    getSumLatency := lat * ((ok + failed : Nat) : ℚ)
    getFastestLatency := lat
    getSlowestLatency := lat
    getBuckets := [{ categories := [ok, failed] }, { categories := [0, 0] }] }

/-- A conversion of the few numerals the sample command lines use. -/
def sampleCast (t : String) : Option Nat :=
  if t = "53" then some 53
  else if t = "30" then some 30
  else if t = "0" then some 0
  else if t = "4" then some 4
  else if t = "10" then some 10
  else none

/-- An environment in which every dispatcher can be set up, every thread can
be created, and `Dispatcher::run` of dispatcher 0 throws a `std::exception`
after five queries. -/
def sampleEnv : Env :=
  { lexical_cast_size_t := sampleCast
    lexical_cast_uint16_t := sampleCast
    dispatcher_throws := fun _ => false
    pthread_create := fun _ => 0
    run := fun i => if i = 0 then RunOutcome.std_exception "boom" else RunOutcome.returned
    dispatchers := fun _ => sampleWorker 5 3 1 (1 / 2) }

/-- The settings of the command line `-n 4 -Q 10 -q "example.com A"`. -/
def sampleSettings : Settings :=
  { options :=
      { Options.init with
        num_threads_txt := some "4", qps_txt := some "10", query_txt := some "example.com A" }
    data_file := none
    dnssec_flag := true
    edns_flag := true
    proto := IPPROTO_UDP
    num_threads := 4
    histogram_nbuckets := 200
    histogram_time := 1
    qps := 10 }

/-- The settings of the command line `-e off -q "example.com A"`. -/
def ednsOffSettings : Settings :=
  { options :=
      { Options.init with edns_flag_txt := some "off", query_txt := some "example.com A" }
    data_file := none
    dnssec_flag := true
    edns_flag := false
    proto := IPPROTO_UDP
    num_threads := 1
    histogram_nbuckets := 200
    histogram_time := 1
    qps := 0 }

/-- A worker configured with the default `setHistogramInput(200, 1)`: 201
buckets, with `sent` queries sent and `ok + failed` of them completed, all in
bucket 0, each with latency `lat`. -/
def defaultShapeWorker (sent ok failed : Nat) (lat : ℚ) : Dispatcher :=
  { getQueriesSent := sent
    getQueriesCompleted := ok + failed
    getRcodes := [ok, 0, failed, 0, 0, 0, 0, 0, 0, 0, 0, 0, 0, 0, 0, 0]
    getSumLatency := lat * ((ok + failed : Nat) : ℚ)
    getFastestLatency := lat
    getSlowestLatency := lat
    getBuckets :=
      { categories := [ok, failed] } :: List.replicate DEFAULT_BUCKETS { categories := [0, 0] } }

/-- An environment in which `Dispatcher::run` of dispatcher 0 throws a
`std::exception` after two queries, one of them answered, and the other
dispatchers run to the end with five queries sent and four answered. -/
def partialEnv : Env :=
  { lexical_cast_size_t := sampleCast
    lexical_cast_uint16_t := sampleCast
    dispatcher_throws := fun _ => false
    pthread_create := fun _ => 0
    run := fun i => if i = 0 then RunOutcome.std_exception "boom" else RunOutcome.returned
    dispatchers := fun i =>
      if i = 0 then defaultShapeWorker 2 1 0 (1 / 2) else defaultShapeWorker 5 3 1 (1 / 2) }

end Queryperf

namespace Queryperf

/-! ## The element-wise loops -/

/-- A loop that rewrites the entries `0 .. n-1` of an array in place, entry `j`
by `f j`, changes exactly those entries. -/
theorem foldl_set_getElem? {α : Type} (d0 : α) (f : Nat → α → α) (n : Nat) (r : List α)
    (i : Nat) :
    ((List.range n).foldl (fun acc j => acc.set j (f j (acc.getD j d0))) r)[i]? =
      if i < n then r[i]?.map (f i) else r[i]? := by
  induction n with
  | zero => simp
  | succ n ih =>
    rw [List.range_succ, List.foldl_append]
    simp only [List.foldl_cons, List.foldl_nil]
    generalize (List.range n).foldl (fun acc j => acc.set j (f j (acc.getD j d0))) r = L at ih ⊢
    rw [List.getElem?_set]
    by_cases hin : n = i
    · subst hin
      have hlt : ¬ n < n := lt_irrefl n
      simp only [hlt, if_false] at ih
      simp only [if_true, Nat.lt_succ_self, List.getD_eq_getElem?_getD, ih]
      by_cases hlen : n < r.length
      · have hl : n < L.length := by
          have h1 : r[n]? = some r[n] := List.getElem?_eq_getElem hlen
          have h2 := ih.trans h1
          exact (List.getElem?_eq_some_iff.mp h2).1
        simp [hl, List.getElem?_eq_getElem hlen]
      · have hnone : r[n]? = none := List.getElem?_eq_none (Nat.le_of_not_lt hlen)
        have hl : ¬ n < L.length := by
          intro hcon
          have h2 := ih.trans hnone
          have := List.getElem?_eq_none_iff.mp h2
          omega
        simp [hl, hnone]
    · simp only [hin, if_false, ih]
      by_cases h1 : i < n
      · have h2 : i < n + 1 := Nat.lt_succ_of_lt h1
        simp [h1, h2]
      · have h2 : ¬ i < n + 1 := by omega
        simp [h1, h2]

/-- An in-place loop keeps the length of the array. -/
theorem foldl_set_length {α : Type} (g : List α → Nat → α) (n : Nat) (r : List α) :
    ((List.range n).foldl (fun acc j => acc.set j (g acc j)) r).length = r.length := by
  induction n with
  | zero => simp
  | succ n ih =>
    rw [List.range_succ, List.foldl_append]
    simp only [List.foldl_cons, List.foldl_nil, List.length_set]
    exact ih

theorem addCounters_getElem? (n : Nat) (r d : List Nat) (i : Nat) :
    (addCounters n r d)[i]? = if i < n then r[i]?.map (fun x => x + d.getD i 0) else r[i]? :=
  foldl_set_getElem? 0 (fun j x => x + d.getD j 0) n r i

theorem addCounters_length (n : Nat) (r d : List Nat) :
    (addCounters n r d).length = r.length :=
  foldl_set_length (fun acc j => acc.getD j 0 + d.getD j 0) n r

theorem addBuckets_getElem? (nbuckets : Nat) (r d : List histogram_bucket) (i : Nat) :
    (addBuckets nbuckets r d)[i]? =
      if i < nbuckets + 1 then
        r[i]?.map (fun b =>
          ({ categories :=
              addCounters CATEGORY_MAX b.categories (d.getD i default).categories } :
            histogram_bucket))
      else r[i]? :=
  foldl_set_getElem? default
    (fun j b =>
      ({ categories :=
          addCounters CATEGORY_MAX b.categories (d.getD j default).categories } :
        histogram_bucket))
    (nbuckets + 1) r i

theorem addBuckets_length (nbuckets : Nat) (r d : List histogram_bucket) :
    (addBuckets nbuckets r d).length = r.length :=
  foldl_set_length
    (fun acc j =>
      ({ categories :=
          addCounters CATEGORY_MAX (acc.getD j default).categories
            (d.getD j default).categories } : histogram_bucket))
    (nbuckets + 1) r

/-- Adding two counter arrays to a third one gives the same array in either
order. -/
theorem addCounters_comm (n : Nat) (r a b : List Nat) :
    addCounters n (addCounters n r a) b = addCounters n (addCounters n r b) a := by
  apply List.ext_getElem?
  intro i
  simp only [addCounters_getElem?]
  by_cases h : i < n
  · simp only [h, if_true, Option.map_map]
    congr 1
    funext x
    simp only [Function.comp]
    omega
  · simp [h]

/-- Adding the histograms of two workers to an accumulator gives the same
histogram in either order. -/
theorem addBuckets_comm (nbuckets : Nat) (r a b : List histogram_bucket) :
    addBuckets nbuckets (addBuckets nbuckets r a) b =
      addBuckets nbuckets (addBuckets nbuckets r b) a := by
  apply List.ext_getElem?
  intro i
  simp only [addBuckets_getElem?]
  by_cases h : i < nbuckets + 1
  · simp only [h, if_true, Option.map_map]
    congr 1
    funext x
    simp only [Function.comp]
    rw [addCounters_comm]
  · simp [h]

/-- Merging two workers into an accumulator gives the same accumulator in
either order. -/
theorem accumulateResult_comm (a b : Dispatcher) (r : QueryStatistics) :
    accumulateResult b (accumulateResult a r) = accumulateResult a (accumulateResult b r) := by
  unfold accumulateResult
  simp only [QueryStatistics.mk.injEq, and_true, true_and]
  refine ⟨by omega, by omega, addCounters_comm _ _ _ _, addBuckets_comm _ _ _ _, by ring, ?_, ?_⟩
  · split_ifs <;> first | rfl | linarith
  · split_ifs <;> first | rfl | linarith

/-- The accumulation loop gives the same statistics for every order of the
dispatchers. -/
theorem accumulateAll_perm (nbuckets time : Nat) (l l' : List Dispatcher) (h : l.Perm l') :
    accumulateAll nbuckets time l = accumulateAll nbuckets time l' := by
  unfold accumulateAll
  haveI : RightCommutative (fun (result : QueryStatistics) (disp : Dispatcher) =>
      accumulateResult disp result) := ⟨fun r a b => accumulateResult_comm a b r⟩
  exact h.foldl_eq _

/-! ## Shapes -/

theorem foldl_push_eq_replicate {α : Type} (z : α) (n : Nat) :
    (List.range n).foldl (fun v _ => v ++ [z]) [] = List.replicate n z := by
  induction n with
  | zero => simp
  | succ n ih =>
    rw [List.range_succ, List.foldl_append, ih, List.replicate_succ']
    simp

theorem new_histogram_buckets (nbuckets time : Nat) :
    (QueryStatistics.new nbuckets time).histogram_buckets =
      List.replicate (nbuckets + 1) histogram_bucket.zero :=
  foldl_push_eq_replicate _ _

theorem new_wellFormed (nbuckets time : Nat) :
    (QueryStatistics.new nbuckets time).WellFormed := by
  refine ⟨?_, ?_, ?_⟩
  · simp [QueryStatistics.new]
  · rw [new_histogram_buckets]
    simp [QueryStatistics.new]
  · rw [new_histogram_buckets]
    intro b hb
    rw [List.eq_of_mem_replicate hb]
    simp [histogram_bucket.zero]

theorem accumulateResult_wellFormed (d : Dispatcher) (r : QueryStatistics)
    (h : r.WellFormed) : (accumulateResult d r).WellFormed := by
  obtain ⟨h1, h2, h3⟩ := h
  refine ⟨?_, ?_, ?_⟩
  · simp [accumulateResult, addCounters_length, h1]
  · simp [accumulateResult, addBuckets_length, h2]
  · intro b hb
    simp only [accumulateResult] at hb
    obtain ⟨i, hi⟩ := List.mem_iff_getElem?.mp hb
    rw [addBuckets_getElem?] at hi
    split_ifs at hi with hlt
    · cases hr : r.histogram_buckets[i]? with
      | none => simp [hr] at hi
      | some b0 =>
        simp only [hr, Option.map_some', Option.some.injEq] at hi
        subst hi
        simp only [addCounters_length]
        exact h3 b0 (List.mem_iff_getElem?.mpr ⟨i, hr⟩)
    · exact h3 b (List.mem_iff_getElem?.mpr ⟨i, hi⟩)

theorem accumulateResult_nbuckets (d : Dispatcher) (r : QueryStatistics) :
    (accumulateResult d r).histogram_nbuckets = r.histogram_nbuckets := rfl

/-! ## Counters add up -/

theorem addCounters_getD (n : Nat) (r d : List Nat) (i : Nat) (hn : i < n)
    (hr : i < r.length) : (addCounters n r d).getD i 0 = r.getD i 0 + d.getD i 0 := by
  rw [List.getD_eq_getElem?_getD, addCounters_getElem?, if_pos hn,
    List.getD_eq_getElem?_getD r, List.getElem?_eq_getElem hr]
  simp

theorem accumulateResult_bucketCount (d : Dispatcher) (r : QueryStatistics)
    (h : r.WellFormed) (i k : Nat) (hi : i ≤ r.histogram_nbuckets) (hk : k < CATEGORY_MAX) :
    bucketCount (accumulateResult d r).histogram_buckets i k =
      bucketCount r.histogram_buckets i k + bucketCount d.getBuckets i k := by
  obtain ⟨_, h2, h3⟩ := h
  have hlen : i < r.histogram_buckets.length := by omega
  have hmem : r.histogram_buckets[i] ∈ r.histogram_buckets := List.getElem_mem hlen
  have hcat := h3 _ hmem
  unfold bucketCount
  simp only [accumulateResult]
  rw [List.getD_eq_getElem?_getD (addBuckets _ _ _), addBuckets_getElem?,
    if_pos (Nat.lt_succ_of_le hi), List.getElem?_eq_getElem hlen,
    List.getD_eq_getElem?_getD r.histogram_buckets, List.getElem?_eq_getElem hlen]
  simp only [Option.map_some', Option.getD_some]
  exact addCounters_getD _ _ _ _ hk (by omega)

theorem accumulateResult_rcodes_getD (d : Dispatcher) (r : QueryStatistics)
    (h : r.WellFormed) (i : Nat) (hi : i < MAX_RCODE) :
    (accumulateResult d r).rcodes.getD i 0 = r.rcodes.getD i 0 + d.getRcodes.getD i 0 := by
  simp only [accumulateResult]
  exact addCounters_getD _ _ _ _ hi (by rw [h.1]; exact hi)

/-- What the accumulation loop leaves in the counters, from any well-shaped
accumulator `r`. -/
theorem foldl_accumulate_sums (ds : List Dispatcher) :
    ∀ r : QueryStatistics, r.WellFormed →
      (ds.foldl (fun result disp => accumulateResult disp result) r).WellFormed ∧
      (ds.foldl (fun result disp => accumulateResult disp result) r).histogram_nbuckets =
        r.histogram_nbuckets ∧
      (ds.foldl (fun result disp => accumulateResult disp result) r).queries_sent =
        r.queries_sent + (ds.map Dispatcher.getQueriesSent).sum ∧
      (ds.foldl (fun result disp => accumulateResult disp result) r).queries_completed =
        r.queries_completed + (ds.map Dispatcher.getQueriesCompleted).sum ∧
      (ds.foldl (fun result disp => accumulateResult disp result) r).latency_LT_SUM =
        r.latency_LT_SUM + (ds.map Dispatcher.getSumLatency).sum ∧
      (∀ i, i < MAX_RCODE →
        (ds.foldl (fun result disp => accumulateResult disp result) r).rcodes.getD i 0 =
          r.rcodes.getD i 0 + (ds.map fun d => d.getRcodes.getD i 0).sum) ∧
      (∀ i k, i ≤ r.histogram_nbuckets → k < CATEGORY_MAX →
        bucketCount
            (ds.foldl (fun result disp => accumulateResult disp result) r).histogram_buckets i k =
          bucketCount r.histogram_buckets i k +
            (ds.map fun d => bucketCount d.getBuckets i k).sum) := by
  induction ds with
  | nil => intro r h; simp [h]
  | cons d ds ih =>
    intro r h
    obtain ⟨g1, g2, g3, g4, g5, g6, g7⟩ := ih (accumulateResult d r) (accumulateResult_wellFormed d r h)
    simp only [List.foldl_cons, List.map_cons, List.sum_cons]
    refine ⟨g1, g2, ?_, ?_, ?_, ?_, ?_⟩
    · rw [g3]; simp only [accumulateResult]; omega
    · rw [g4]; simp only [accumulateResult]; omega
    · rw [g5]; simp only [accumulateResult]; ring
    · intro i hi
      rw [g6 i hi, accumulateResult_rcodes_getD d r h i hi]; omega
    · intro i k hi hk
      rw [g7 i k hi hk, accumulateResult_bucketCount d r h i k hi hk]; omega

theorem new_rcodes_getD (nbuckets time i : Nat) :
    (QueryStatistics.new nbuckets time).rcodes.getD i 0 = 0 := by
  simp only [QueryStatistics.new, List.getD_eq_getElem?_getD, List.getElem?_replicate]
  split_ifs <;> rfl

theorem new_bucketCount (nbuckets time i k : Nat) :
    bucketCount (QueryStatistics.new nbuckets time).histogram_buckets i k = 0 := by
  unfold bucketCount
  rw [new_histogram_buckets]
  simp only [List.getD_eq_getElem?_getD, List.getElem?_replicate]
  have hz : ∀ j : Nat, (histogram_bucket.zero.categories[j]?).getD 0 = 0 := by
    intro j
    simp only [histogram_bucket.zero, List.getElem?_replicate]
    split_ifs <;> rfl
  split_ifs
  · exact hz k
  · exact hz k

/-! ## The histogram total -/

theorem histogramTotal_accumulateResult (d : Dispatcher) (r : QueryStatistics)
    (h : r.WellFormed) :
    histogramTotal r.histogram_nbuckets (accumulateResult d r).histogram_buckets =
      histogramTotal r.histogram_nbuckets r.histogram_buckets +
        histogramTotal r.histogram_nbuckets d.getBuckets := by
  unfold histogramTotal
  rw [← List.sum_map_add]
  congr 1
  apply List.map_congr_left
  intro i hi
  rw [← List.sum_map_add]
  congr 1
  apply List.map_congr_left
  intro k hk
  exact accumulateResult_bucketCount d r h i k
    (Nat.le_of_lt_succ (List.mem_range.mp hi)) (List.mem_range.mp hk)

theorem new_invariant (nbuckets time : Nat) :
    (QueryStatistics.new nbuckets time).Invariant := by
  refine ⟨Nat.le_refl _, ?_⟩
  unfold histogramTotal
  simp only [new_bucketCount]
  simp [QueryStatistics.new]

theorem accumulateResult_invariant (d : Dispatcher) (r : QueryStatistics)
    (h : r.WellFormed) (hr : r.Invariant) (hd : d.Invariant r.histogram_nbuckets) :
    (accumulateResult d r).Invariant := by
  refine ⟨?_, ?_⟩
  · simp only [accumulateResult]
    exact Nat.add_le_add hr.1 hd.1
  · rw [accumulateResult_nbuckets, histogramTotal_accumulateResult d r h, hr.2, hd.2]
    rfl

theorem foldl_accumulate_invariant (ds : List Dispatcher) :
    ∀ r : QueryStatistics, r.WellFormed → r.Invariant →
      (∀ d ∈ ds, d.Invariant r.histogram_nbuckets) →
      (ds.foldl (fun result disp => accumulateResult disp result) r).Invariant := by
  induction ds with
  | nil => intro r _ hr _; exact hr
  | cons d ds ih =>
    intro r h hr hds
    simp only [List.foldl_cons]
    apply ih _ (accumulateResult_wellFormed d r h)
    · exact accumulateResult_invariant d r h hr (hds d (List.mem_cons_self _ _))
    · intro d' hd'
      rw [accumulateResult_nbuckets]
      exact hds d' (List.mem_cons_of_mem _ hd')

/-! ## Fastest and slowest latency -/

theorem foldl_accumulate_fastest (ds : List Dispatcher) :
    ∀ r : QueryStatistics,
      (ds.foldl (fun result disp => accumulateResult disp result) r).latency_LT_FASTEST =
        minimumOf r.latency_LT_FASTEST (ds.map Dispatcher.getFastestLatency) := by
  induction ds with
  | nil => intro r; rfl
  | cons d ds ih =>
    intro r
    simp only [List.foldl_cons, List.map_cons, minimumOf]
    rw [ih]
    simp only [minimumOf, accumulateResult]
    congr 1
    split_ifs with h
    · exact (min_eq_right (le_of_lt h)).symm
    · exact (min_eq_left (not_lt.mp h)).symm

theorem foldl_accumulate_slowest (ds : List Dispatcher) :
    ∀ r : QueryStatistics,
      (ds.foldl (fun result disp => accumulateResult disp result) r).latency_LT_SLOWEST =
        maximumOf r.latency_LT_SLOWEST (ds.map Dispatcher.getSlowestLatency) := by
  induction ds with
  | nil => intro r; rfl
  | cons d ds ih =>
    intro r
    simp only [List.foldl_cons, List.map_cons, maximumOf]
    rw [ih]
    simp only [maximumOf, accumulateResult]
    congr 1
    split_ifs with h
    · exact (max_eq_right (le_of_lt h)).symm
    · exact (max_eq_left (not_lt.mp h)).symm

theorem minimumOf_zero_of_nonneg (xs : List ℚ) (h : ∀ x ∈ xs, 0 ≤ x) : minimumOf 0 xs = 0 := by
  induction xs with
  | nil => rfl
  | cons x xs ih =>
    simp only [minimumOf, List.foldl_cons]
    rw [min_eq_left (h x (List.mem_cons_self _ _))]
    exact ih fun y hy => h y (List.mem_cons_of_mem _ hy)

/-- The merged fastest latency starts at the 0 of the constructor and is only
ever lowered: with workers whose fastest latencies are not negative it stays 0. -/
theorem merged_fastest_is_zero (nbuckets time : Nat) (ds : List Dispatcher)
    (h : ∀ d ∈ ds, 0 ≤ d.getFastestLatency) :
    (accumulateAll nbuckets time ds).latency_LT_FASTEST = 0 := by
  unfold accumulateAll
  rw [foldl_accumulate_fastest]
  apply minimumOf_zero_of_nonneg
  intro x hx
  obtain ⟨d, hd, rfl⟩ := List.mem_map.mp hx
  exact h d hd

/-- The merged slowest latency is the greatest of the workers' slowest
latencies, when the first worker's is not negative. -/
theorem merged_slowest_is_max (nbuckets time : Nat) (d : Dispatcher) (ds : List Dispatcher)
    (h : 0 ≤ d.getSlowestLatency) :
    (accumulateAll nbuckets time (d :: ds)).latency_LT_SLOWEST =
      maximumOf d.getSlowestLatency (ds.map Dispatcher.getSlowestLatency) := by
  unfold accumulateAll
  rw [foldl_accumulate_slowest]
  simp only [List.map_cons, maximumOf, List.foldl_cons]
  congr 1
  exact max_eq_right h

/-! ## The claims on merging -/

/-- C1: three per-worker statistics with the same histogram bucket count,
accumulated with `accumulateResult` into a freshly constructed
`QueryStatistics` in any order, leave the same statistics (every field:
`queries_sent`, `queries_completed`, `rcodes`, the three latencies and the
histogram buckets). -/
theorem merge_any_order (nbuckets time : Nat) (a b c : Dispatcher)
    (_ha : a.WellFormed nbuckets) (_hb : b.WellFormed nbuckets) (_hc : c.WellFormed nbuckets)
    (l : List Dispatcher) (hl : l.Perm [a, b, c]) :
    accumulateAll nbuckets time l = accumulateAll nbuckets time [a, b, c] :=
  accumulateAll_perm nbuckets time l [a, b, c] hl

theorem merge_any_order_witness :
    (sampleWorker 5 3 1 (1 / 2)).WellFormed 1 ∧ (sampleWorker 4 2 2 (1 / 4)).WellFormed 1 ∧
    (sampleWorker 7 0 0 0).WellFormed 1 ∧
    accumulateAll 1 1 [sampleWorker 4 2 2 (1 / 4), sampleWorker 5 3 1 (1 / 2), sampleWorker 7 0 0 0] =
      accumulateAll 1 1
        [sampleWorker 5 3 1 (1 / 2), sampleWorker 4 2 2 (1 / 4), sampleWorker 7 0 0 0] :=
  ⟨by decide, by decide, by decide,
    merge_any_order 1 1 (sampleWorker 5 3 1 (1 / 2)) (sampleWorker 4 2 2 (1 / 4))
      (sampleWorker 7 0 0 0) (by decide) (by decide) (by decide) _ (List.Perm.swap _ _ _)⟩

/-- C2: after `main` has accumulated a list of workers into a fresh
`QueryStatistics(N, W)`, `queries_sent`, `queries_completed`, `latency[LT_SUM]`
and each `rcodes[i]`, `i < MAX_RCODE`, are the sums of the workers' values, and
each counter of bucket `i <= N`, category `k`, is the sum of the workers'
counters of that bucket and category. -/
theorem merge_sums (nbuckets time : Nat) (ds : List Dispatcher)
    (_hwf : ∀ d ∈ ds, d.WellFormed nbuckets) :
    (accumulateAll nbuckets time ds).queries_sent = (ds.map Dispatcher.getQueriesSent).sum ∧
    (accumulateAll nbuckets time ds).queries_completed =
      (ds.map Dispatcher.getQueriesCompleted).sum ∧
    (∀ i, i < MAX_RCODE →
      (accumulateAll nbuckets time ds).rcodes.getD i 0 =
        (ds.map fun d => d.getRcodes.getD i 0).sum) ∧
    (accumulateAll nbuckets time ds).latency_LT_SUM = (ds.map Dispatcher.getSumLatency).sum ∧
    (∀ i k, i ≤ nbuckets → k < CATEGORY_MAX →
      ((accumulateAll nbuckets time ds).histogram_buckets.getD i default).categories.getD k 0 =
        (ds.map fun d => (d.getBuckets.getD i default).categories.getD k 0).sum) := by
  obtain ⟨_, _, g3, g4, g5, g6, g7⟩ :=
    foldl_accumulate_sums ds (QueryStatistics.new nbuckets time) (new_wellFormed nbuckets time)
  refine ⟨?_, ?_, ?_, ?_, ?_⟩
  · unfold accumulateAll; rw [g3]; simp [QueryStatistics.new]
  · unfold accumulateAll; rw [g4]; simp [QueryStatistics.new]
  · intro i hi
    unfold accumulateAll
    rw [g6 i hi, new_rcodes_getD]; simp
  · unfold accumulateAll; rw [g5]; simp [QueryStatistics.new]
  · intro i k hi hk
    have := g7 i k hi hk
    rw [new_bucketCount] at this
    unfold accumulateAll
    simpa [bucketCount] using this

theorem merge_sums_witness :
    (∀ d ∈ [sampleWorker 5 3 1 (1 / 2), sampleWorker 4 2 2 (1 / 4)], d.WellFormed 1) ∧
    (accumulateAll 1 1 [sampleWorker 5 3 1 (1 / 2), sampleWorker 4 2 2 (1 / 4)]).queries_sent =
      ([sampleWorker 5 3 1 (1 / 2), sampleWorker 4 2 2 (1 / 4)].map
        Dispatcher.getQueriesSent).sum :=
  ⟨by decide,
    (merge_sums 1 1 [sampleWorker 5 3 1 (1 / 2), sampleWorker 4 2 2 (1 / 4)] (by decide)).1⟩

/-- C3, evaluated on one worker whose only query took half a second: the
merged slowest latency is 1/2, the greatest of the workers' slowest latencies,
but the merged fastest latency is 0 and not 1/2, the least of the workers'
fastest latencies. -/
theorem merged_fastest_of_one_worker :
    (accumulateAll 1 1 [sampleWorker 1 1 0 (1 / 2)]).latency_LT_FASTEST = 0 ∧
    minimumOf (sampleWorker 1 1 0 (1 / 2)).getFastestLatency [] = 1 / 2 ∧
    (accumulateAll 1 1 [sampleWorker 1 1 0 (1 / 2)]).latency_LT_SLOWEST = 1 / 2 ∧
    maximumOf (sampleWorker 1 1 0 (1 / 2)).getSlowestLatency [] = 1 / 2 := by
  refine ⟨?_, rfl, ?_, rfl⟩
  · simp [accumulateAll, accumulateResult, QueryStatistics.new, sampleWorker]
  · simp [accumulateAll, accumulateResult, QueryStatistics.new, sampleWorker]

/-- C4: a freshly constructed `QueryStatistics` satisfies
`queries_completed <= queries_sent` and (sum over its N+1 buckets and all
categories) `= queries_completed`; `accumulateResult` keeps the two invariants
when the worker merged satisfies them; hence the totals `main` reports satisfy
them for any number of workers that do. -/
theorem invariants_survive_merge :
    (∀ nbuckets time : Nat, (QueryStatistics.new nbuckets time).Invariant) ∧
    (∀ (r : QueryStatistics) (d : Dispatcher), r.WellFormed →
      d.WellFormed r.histogram_nbuckets → r.Invariant → d.Invariant r.histogram_nbuckets →
      (accumulateResult d r).Invariant) ∧
    (∀ (nbuckets time : Nat) (ds : List Dispatcher),
      (∀ d ∈ ds, d.WellFormed nbuckets ∧ d.Invariant nbuckets) →
      (accumulateAll nbuckets time ds).Invariant) := by
  refine ⟨new_invariant, ?_, ?_⟩
  · intro r d h _ hr hd
    exact accumulateResult_invariant d r h hr hd
  · intro nbuckets time ds hds
    unfold accumulateAll
    apply foldl_accumulate_invariant ds _ (new_wellFormed nbuckets time)
      (new_invariant nbuckets time)
    intro d hd
    exact (hds d hd).2

theorem invariants_survive_merge_witness :
    ((QueryStatistics.new 1 1).WellFormed ∧ (sampleWorker 5 3 1 (1 / 2)).WellFormed 1 ∧
      (QueryStatistics.new 1 1).Invariant ∧ (sampleWorker 5 3 1 (1 / 2)).Invariant 1 ∧
      (accumulateResult (sampleWorker 5 3 1 (1 / 2)) (QueryStatistics.new 1 1)).Invariant) ∧
    ((∀ d ∈ [sampleWorker 5 3 1 (1 / 2), sampleWorker 4 2 2 (1 / 4)],
        d.WellFormed 1 ∧ d.Invariant 1) ∧
      (accumulateAll 1 1 [sampleWorker 5 3 1 (1 / 2), sampleWorker 4 2 2 (1 / 4)]).Invariant) :=
  ⟨⟨by decide, by decide, by decide, by decide,
      invariants_survive_merge.2.1 (QueryStatistics.new 1 1) (sampleWorker 5 3 1 (1 / 2))
        (by decide) (by decide) (by decide) (by decide)⟩,
    ⟨by decide,
      invariants_survive_merge.2.2 1 1 [sampleWorker 5 3 1 (1 / 2), sampleWorker 4 2 2 (1 / 4)]
        (by decide)⟩⟩

/-! ## The validation of the options -/

/-- What the checks of `main` have established when the validation passes. -/
theorem validate_ok (env : Env) (o : Options) (s : Settings)
    (h : validate env o = Except.ok s) :
    ¬ (effectiveDataFile o ≠ none ∧ o.query_txt ≠ none) ∧
    parseOnOffFlag o.dnssec_flag_txt DEFAULT_DNSSEC = some s.dnssec_flag ∧
    parseOnOffFlag o.edns_flag_txt DEFAULT_EDNS = some s.edns_flag ∧
    ¬ (o.proto_txt ≠ "udp" ∧ o.proto_txt ≠ "tcp") ∧
    castOr env o.num_threads_txt DEFAULT_THREAD_COUNT = some s.num_threads ∧
    ¬ (s.num_threads > 1 ∧ effectiveDataFile o = some "-") ∧
    castOr env o.histogram_nbuckets_txt DEFAULT_BUCKETS = some s.histogram_nbuckets ∧
    castOr env o.histogram_time_txt DEFAULT_HISTOGRAM_TIME = some s.histogram_time ∧
    ¬ (o.histogram_time_txt ≠ none ∧ s.histogram_time = 0) ∧
    castOr env o.qps_txt 0 = some s.qps ∧
    s.options = o ∧ s.data_file = effectiveDataFile o := by
  unfold validate at h
  simp only [] at h
  split at h
  · exact absurd h (by simp)
  · rename_i h1
    split at h
    · exact absurd h (by simp)
    · rename_i dn hdn
      split at h
      · exact absurd h (by simp)
      · rename_i ed hed
        split at h
        · exact absurd h (by simp)
        · rename_i h2
          split at h
          · exact absurd h (by simp)
          · rename_i n hn
            split at h
            · exact absurd h (by simp)
            · rename_i h3
              split at h
              · exact absurd h (by simp)
              · rename_i nb hnb
                split at h
                · exact absurd h (by simp)
                · rename_i tm htm
                  split at h
                  · exact absurd h (by simp)
                  · rename_i h4
                    split at h
                    · exact absurd h (by simp)
                    · rename_i q hq
                      simp only [Except.ok.injEq] at h
                      subst h
                      exact ⟨h1, hdn, hed, h2, hn, h3, hnb, htm, h4, hq, rfl, rfl⟩

/-- The window width `main` passes to the constructor of `QueryStatistics` is
positive. -/
theorem validate_histogram_time_pos (env : Env) (o : Options) (s : Settings)
    (h : validate env o = Except.ok s) : 0 < s.histogram_time := by
  obtain ⟨_, _, _, _, _, _, _, g8, g9, _, _, _⟩ := validate_ok env o s h
  cases ht : o.histogram_time_txt with
  | none =>
    rw [ht] at g8
    simp only [castOr, Option.some.injEq] at g8
    rw [← g8]
    decide
  | some t =>
    have : ¬ s.histogram_time = 0 := fun h0 => g9 ⟨by rw [ht]; simp, h0⟩
    omega

theorem parseOnOffFlag_some (a : String) (dflt b : Bool)
    (h : parseOnOffFlag (some a) dflt = some b) : a = "on" ∨ a = "off" := by
  unfold parseOnOffFlag at h
  simp only [] at h
  by_cases h1 : a = "on"
  · exact Or.inl h1
  · by_cases h2 : a = "off"
    · exact Or.inr h2
    · simp [h1, h2] at h

/-- A configuration error makes the validation fail. -/
theorem validate_error_of_configError (env : Env) (o : Options) (h : ConfigError env o) :
    ∃ w, validate env o = Except.error w := by
  cases hv : validate env o with
  | error w => exact ⟨w, rfl⟩
  | ok s =>
    exfalso
    obtain ⟨g1, g2, g3, g4, g5, g6, _, g8, g9, _, _, _⟩ := validate_ok env o s hv
    rcases h with ⟨hd, hq⟩ | hp | ⟨a, ha, hon, hoff⟩ | ⟨a, ha, hon, hoff⟩ |
      ⟨t, n, ht, hc, hn, hin⟩ | ⟨t, ht, hc⟩
    · apply g1
      refine ⟨?_, hq⟩
      unfold effectiveDataFile
      rw [if_neg (fun hcon => hd hcon.1)]
      exact hd
    · exact g4 hp
    · rw [ha] at g2
      rcases parseOnOffFlag_some a _ _ g2 with h1 | h1
      · exact hon h1
      · exact hoff h1
    · rw [ha] at g3
      rcases parseOnOffFlag_some a _ _ g3 with h1 | h1
      · exact hon h1
      · exact hoff h1
    · rw [ht] at g5
      simp only [castOr, hc, Option.some.injEq] at g5
      apply g6
      refine ⟨by omega, ?_⟩
      unfold effectiveDataFile
      rcases hin with hin | ⟨hin1, hin2⟩
      · rw [if_neg (fun hcon => by rw [hcon.1] at hin; exact absurd hin (by simp)), hin]
      · rw [if_pos ⟨hin1, hin2⟩]
        rfl
    · rw [ht] at g8
      simp only [castOr, hc, Option.some.injEq] at g8
      exact g9 ⟨by rw [ht]; simp, g8.symm⟩

/-! ## The two loops over the dispatchers -/

theorem configureDispatcher_some (env : Env) (s : Settings) (i : Nat) (c : DispatcherConfig)
    (h : configureDispatcher env s i = some c) :
    c.setQPS = s.qps / s.num_threads ∧ c.setEDNS = s.edns_flag ∧
      c.setDNSSEC = s.dnssec_flag ∧
      c.setHistogramInput = (s.histogram_nbuckets, s.histogram_time) := by
  unfold configureDispatcher at h
  split at h
  · exact absurd h (by simp)
  · split at h
    · simp only [Option.some.injEq] at h
      subst h
      exact ⟨rfl, rfl, rfl, rfl⟩
    · exact absurd h (by simp)

/-- Every dispatcher the `// Prepare` loop has configured was configured by
the body of the loop. -/
theorem prepare_fold_mem (env : Env) (s : Settings) (n : Nat) :
    ∀ c ∈ ((List.range n).foldl
        (fun (st : List DispatcherConfig × Bool) i =>
          if st.2 then
            match configureDispatcher env s i with
            | some c => (st.1 ++ [c], true)
            | none => (st.1, false)
          else st)
        ([], true)).1,
      ∃ i, i < n ∧ configureDispatcher env s i = some c := by
  induction n with
  | zero => intro c hc; simp at hc
  | succ n ih =>
    intro c hc
    rw [List.range_succ, List.foldl_append] at hc
    simp only [List.foldl_cons, List.foldl_nil] at hc
    split at hc
    · split at hc
      · rename_i c0 hc0
        simp only [List.mem_append, List.mem_singleton] at hc
        rcases hc with hc | hc
        · obtain ⟨i, hi, hci⟩ := ih c hc
          exact ⟨i, Nat.lt_succ_of_lt hi, hci⟩
        · subst hc
          exact ⟨n, Nat.lt_succ_self n, hc0⟩
      · obtain ⟨i, hi, hci⟩ := ih c hc
        exact ⟨i, Nat.lt_succ_of_lt hi, hci⟩
    · obtain ⟨i, hi, hci⟩ := ih c hc
      exact ⟨i, Nat.lt_succ_of_lt hi, hci⟩

/-- When no iteration throws, the `// Prepare` loop configures `n` dispatchers. -/
theorem prepare_fold_ok (env : Env) (s : Settings) (n : Nat)
    (h : ∀ i, i < n → (configureDispatcher env s i).isSome = true) :
    ((List.range n).foldl
        (fun (st : List DispatcherConfig × Bool) i =>
          if st.2 then
            match configureDispatcher env s i with
            | some c => (st.1 ++ [c], true)
            | none => (st.1, false)
          else st)
        ([], true)).2 = true ∧
    ((List.range n).foldl
        (fun (st : List DispatcherConfig × Bool) i =>
          if st.2 then
            match configureDispatcher env s i with
            | some c => (st.1 ++ [c], true)
            | none => (st.1, false)
          else st)
        ([], true)).1.length = n := by
  induction n with
  | zero => simp
  | succ n ih =>
    obtain ⟨ih1, ih2⟩ := ih fun i hi => h i (Nat.lt_succ_of_lt hi)
    rw [List.range_succ, List.foldl_append]
    simp only [List.foldl_cons, List.foldl_nil, ih1, if_true]
    have hn := h n (Nat.lt_succ_self n)
    obtain ⟨c, hc⟩ := Option.isSome_iff_exists.mp hn
    simp only [hc, List.length_append, List.length_singleton, ih2, and_self]

theorem createThreads_ok (env : Env) (n : Nat) (h : ∀ i, i < n → env.pthread_create i = 0) :
    createThreads env n = (List.range n, true) := by
  unfold createThreads
  induction n with
  | zero => simp
  | succ n ih =>
    rw [List.range_succ, List.foldl_append, ih fun i hi => h i (Nat.lt_succ_of_lt hi)]
    simp [h n (Nat.lt_succ_self n)]

theorem runQueryperf_returns (outcome : RunOutcome) (h : outcome ≠ RunOutcome.other_exception) :
    ∃ m, runQueryperf outcome = ThreadEnd.returned m := by
  cases outcome with
  | returned => exact ⟨none, rfl⟩
  | std_exception what => exact ⟨_, rfl⟩
  | other_exception => exact absurd rfl h

/-! ## `main` on a valid configuration -/

theorem main_eq_mainRun (env : Env) (opts : List (Char × String)) (o : Options) (s : Settings)
    (h1 : getoptLoop Options.init opts = some o) (h2 : validate env o = Except.ok s) :
    main env opts = mainRun env s := by
  simp only [main, h1, h2]

theorem mainRun_configs (env : Env) (s : Settings) :
    (mainRun env s).configs = (prepare env s).1 := by
  unfold mainRun
  simp only []
  split_ifs <;> rfl

theorem mainRun_warned (env : Env) (s : Settings) :
    (mainRun env s).warned = warns s.edns_flag s.dnssec_flag := by
  unfold mainRun
  simp only []
  split_ifs <;> rfl

/-- On a valid configuration whose threads can all be created and whose
workers return or throw a `std::exception`, `main` reports the merged
statistics of all dispatchers and returns 0. -/
theorem mainRun_ok (env : Env) (s : Settings)
    (hprep : ∀ i, i < s.num_threads → (configureDispatcher env s i).isSome = true)
    (hthr : ∀ i, i < s.num_threads → env.pthread_create i = 0)
    (hrun : ∀ i, i < s.num_threads → env.run i ≠ RunOutcome.other_exception) :
    (mainRun env s).exit_status = some 0 ∧
    (mainRun env s).threads = List.range s.num_threads ∧
    (mainRun env s).report = some (makeReport env s) := by
  have hp : (prepare env s).2 = true := (prepare_fold_ok env s s.num_threads hprep).1
  have hc := createThreads_ok env s.num_threads hthr
  have hany : ((List.range s.num_threads).map fun i => runQueryperf (env.run i)).any
      (fun e => e = ThreadEnd.uncaught) = false := by
    rw [List.any_eq_false]
    intro e he
    obtain ⟨i, hi, rfl⟩ := List.mem_map.mp he
    obtain ⟨m, hm⟩ := runQueryperf_returns (env.run i) (hrun i (List.mem_range.mp hi))
    simp [hm]
  unfold mainRun
  simp only [hp, hc, hany, Bool.not_true, Bool.false_eq_true, if_false, and_self]

/-! ## The claims on `main` -/

/-- C5: on a valid configuration with `n >= 1` workers and the global rate `Q`
(the `-Q` argument, 0 when `-Q` is absent), `main` configures `n` dispatchers
and each of them receives `setQPS(p)` with the same `p = Q / n` rounded down:
`n * p <= Q < n * p + n`. -/
theorem per_worker_qps (env : Env) (opts : List (Char × String)) (o : Options) (s : Settings)
    (hvalid : ValidConfiguration env opts o s) (hn : 1 ≤ s.num_threads) :
    castOr env o.qps_txt 0 = some s.qps ∧
    castOr env o.num_threads_txt DEFAULT_THREAD_COUNT = some s.num_threads ∧
    (main env opts).configs.length = s.num_threads ∧
    (∀ c ∈ (main env opts).configs, c.setQPS = s.qps / s.num_threads) ∧
    s.num_threads * (s.qps / s.num_threads) ≤ s.qps ∧
    s.qps < s.num_threads * (s.qps / s.num_threads) + s.num_threads := by
  obtain ⟨h1, h2, h3⟩ := hvalid
  obtain ⟨_, _, _, _, g5, _, _, _, _, g10, _, _⟩ := validate_ok env o s h2
  rw [main_eq_mainRun env opts o s h1 h2, mainRun_configs]
  refine ⟨g10, g5, (prepare_fold_ok env s s.num_threads h3).2, ?_, Nat.mul_div_le _ _, ?_⟩
  · intro c hc
    obtain ⟨i, _, hi⟩ := prepare_fold_mem env s s.num_threads c hc
    exact (configureDispatcher_some env s i c hi).1
  · have := Nat.lt_div_mul_add (a := s.qps) (b := s.num_threads) (by omega)
    rw [Nat.mul_comm]
    exact this

theorem per_worker_qps_witness :
    ValidConfiguration sampleEnv [('n', "4"), ('Q', "10"), ('q', "example.com A")]
      sampleSettings.options sampleSettings ∧
    1 ≤ sampleSettings.num_threads ∧
    ∀ c ∈ (main sampleEnv [('n', "4"), ('Q', "10"), ('q', "example.com A")]).configs,
      c.setQPS = sampleSettings.qps / sampleSettings.num_threads :=
  ⟨⟨rfl, rfl, by decide⟩, by decide,
    (per_worker_qps sampleEnv [('n', "4"), ('Q', "10"), ('q', "example.com A")]
      sampleSettings.options sampleSettings ⟨rfl, rfl, by decide⟩ (by decide)).2.2.2.1⟩

/-- C6: a command line with a configuration error (or one on which the
`getopt` loop ends in `usage()`) makes `main` exit with status 1 before any
dispatcher is configured and before any worker thread is created, hence before
any `Dispatcher::run`. -/
theorem config_error_exits (env : Env) (opts : List (Char × String))
    (h : ∀ o, getoptLoop Options.init opts = some o → ConfigError env o) :
    (main env opts).exit_status = some 1 ∧ (main env opts).threads = [] ∧
      (main env opts).configs = [] ∧ (main env opts).report = none := by
  unfold main
  cases ho : getoptLoop Options.init opts with
  | none => exact ⟨rfl, rfl, rfl, rfl⟩
  | some o =>
    obtain ⟨w, hw⟩ := validate_error_of_configError env o (h o ho)
    simp only [hw, and_self]

theorem config_error_exits_witness :
    (∀ o, getoptLoop Options.init [('d', "queries.txt"), ('q', "example.com A")] = some o →
      ConfigError sampleEnv o) ∧
    (main sampleEnv [('d', "queries.txt"), ('q', "example.com A")]).exit_status = some 1 ∧
    (main sampleEnv [('d', "queries.txt"), ('q', "example.com A")]).threads = [] :=
  have hyp : ∀ o, getoptLoop Options.init [('d', "queries.txt"), ('q', "example.com A")] = some o →
      ConfigError sampleEnv o := by
    intro o ho
    simp only [getoptLoop, getoptStep, Option.some.injEq] at ho
    subst ho
    exact Or.inl ⟨by simp, by simp⟩
  ⟨hyp, (config_error_exits sampleEnv _ hyp).1, (config_error_exits sampleEnv _ hyp).2.1⟩

/-- The lines the worker threads have written to `cerr` when `main` reaches
the report. -/
theorem mainRun_worker_cerr (env : Env) (s : Settings)
    (hprep : ∀ i, i < s.num_threads → (configureDispatcher env s i).isSome = true)
    (hthr : ∀ i, i < s.num_threads → env.pthread_create i = 0)
    (hrun : ∀ i, i < s.num_threads → env.run i ≠ RunOutcome.other_exception) :
    (mainRun env s).worker_cerr =
      ((List.range s.num_threads).map fun i => runQueryperf (env.run i)).filterMap fun e =>
        match e with
        | ThreadEnd.returned m => m
        | ThreadEnd.uncaught => none := by
  have hp : (prepare env s).2 = true := (prepare_fold_ok env s s.num_threads hprep).1
  have hc := createThreads_ok env s.num_threads hthr
  have hany : ((List.range s.num_threads).map fun i => runQueryperf (env.run i)).any
      (fun e => e = ThreadEnd.uncaught) = false := by
    rw [List.any_eq_false]
    intro e he
    obtain ⟨i, hi, rfl⟩ := List.mem_map.mp he
    obtain ⟨m, hm⟩ := runQueryperf_returns (env.run i) (hrun i (List.mem_range.mp hi))
    simp [hm]
  unfold mainRun
  simp only [hp, hc, hany, Bool.not_true, Bool.false_eq_true, if_false]

/-- The counters of the report of `main` are the sums of the counters the
dispatchers `0 .. num_threads - 1` hold. -/
theorem makeReport_sums (env : Env) (s : Settings) :
    (makeReport env s).result.queries_sent =
      ((List.range s.num_threads).map fun i => (env.dispatchers i).getQueriesSent).sum ∧
    (makeReport env s).result.queries_completed =
      ((List.range s.num_threads).map fun i => (env.dispatchers i).getQueriesCompleted).sum ∧
    (makeReport env s).result.latency_LT_SUM =
      ((List.range s.num_threads).map fun i => (env.dispatchers i).getSumLatency).sum ∧
    (∀ j, j < MAX_RCODE →
      (makeReport env s).result.rcodes.getD j 0 =
        ((List.range s.num_threads).map fun i => (env.dispatchers i).getRcodes.getD j 0).sum) ∧
    (∀ j k, j ≤ s.histogram_nbuckets → k < CATEGORY_MAX →
      bucketCount (makeReport env s).result.histogram_buckets j k =
        ((List.range s.num_threads).map fun i =>
          bucketCount (env.dispatchers i).getBuckets j k).sum) := by
  obtain ⟨_, _, g3, g4, g5, g6, g7⟩ :=
    foldl_accumulate_sums ((List.range s.num_threads).map env.dispatchers)
      (QueryStatistics.new s.histogram_nbuckets s.histogram_time)
      (new_wellFormed s.histogram_nbuckets s.histogram_time)
  simp only [List.map_map] at g3 g4 g5 g6 g7
  simp only [makeReport, accumulateAll]
  refine ⟨?_, ?_, ?_, ?_, ?_⟩
  · rw [g3]; simp [QueryStatistics.new, Function.comp_def]
  · rw [g4]; simp [QueryStatistics.new, Function.comp_def]
  · rw [g5]; simp [QueryStatistics.new, Function.comp_def]
  · intro j hj
    rw [g6 j hj, new_rcodes_getD]; simp [Function.comp_def]
  · intro j k hj hk
    rw [g7 j k hj hk, new_bucketCount]; simp [Function.comp_def]

/-- C7: on a valid configuration whose threads can all be created and whose
dispatchers hold statistics of the configured shape, whatever way each worker's
`Dispatcher::run` ends (a normal return or a thrown `std::exception`),
`runQueryperf` returns without propagating the error and logs each exception,
`main` returns 0, and the report holds the statistics of all `num_threads`
dispatchers, the failed ones included: its `queries_sent`, `queries_completed`,
`latency[LT_SUM]`, every `rcodes[j]` and every bucket counter are the sums over
all dispatchers of what each one holds. -/
theorem failing_worker_does_not_abort (env : Env) (opts : List (Char × String)) (o : Options)
    (s : Settings) (hvalid : ValidConfiguration env opts o s)
    (hthr : ∀ i, i < s.num_threads → env.pthread_create i = 0)
    (_hshape : ∀ i, i < s.num_threads → (env.dispatchers i).WellFormed s.histogram_nbuckets)
    (hrun : ∀ i, i < s.num_threads →
      env.run i = RunOutcome.returned ∨ ∃ what, env.run i = RunOutcome.std_exception what) :
    (∀ i, i < s.num_threads → ∃ m, runQueryperf (env.run i) = ThreadEnd.returned m) ∧
    (∀ i what, i < s.num_threads → env.run i = RunOutcome.std_exception what →
      ("Worker thread died unexpectedly: " ++ what) ∈ (main env opts).worker_cerr) ∧
    (main env opts).exit_status = some 0 ∧
    (main env opts).threads = List.range s.num_threads ∧
    ∃ rep, (main env opts).report = some rep ∧
      rep.result =
        accumulateAll s.histogram_nbuckets s.histogram_time
          ((List.range s.num_threads).map env.dispatchers) ∧
      rep.result.queries_sent =
        ((List.range s.num_threads).map fun i => (env.dispatchers i).getQueriesSent).sum ∧
      rep.result.queries_completed =
        ((List.range s.num_threads).map fun i => (env.dispatchers i).getQueriesCompleted).sum ∧
      rep.result.latency_LT_SUM =
        ((List.range s.num_threads).map fun i => (env.dispatchers i).getSumLatency).sum ∧
      (∀ j, j < MAX_RCODE →
        rep.result.rcodes.getD j 0 =
          ((List.range s.num_threads).map fun i =>
            (env.dispatchers i).getRcodes.getD j 0).sum) ∧
      (∀ j k, j ≤ s.histogram_nbuckets → k < CATEGORY_MAX →
        bucketCount rep.result.histogram_buckets j k =
          ((List.range s.num_threads).map fun i =>
            bucketCount (env.dispatchers i).getBuckets j k).sum) := by
  obtain ⟨h1, h2, h3⟩ := hvalid
  have hne : ∀ i, i < s.num_threads → env.run i ≠ RunOutcome.other_exception := by
    intro i hi
    rcases hrun i hi with h | ⟨what, h⟩ <;> rw [h] <;> simp
  obtain ⟨g1, g2, g3⟩ := mainRun_ok env s h3 hthr hne
  have hcerr := mainRun_worker_cerr env s h3 hthr hne
  obtain ⟨k1, k2, k3, k4, k5⟩ := makeReport_sums env s
  rw [main_eq_mainRun env opts o s h1 h2]
  refine ⟨fun i hi => runQueryperf_returns _ (hne i hi), ?_, g1, g2,
    makeReport env s, g3, rfl, k1, k2, k3, k4, k5⟩
  intro i what hi hw
  rw [hcerr, List.mem_filterMap]
  refine ⟨runQueryperf (env.run i), List.mem_map.mpr ⟨i, List.mem_range.mpr hi, rfl⟩, ?_⟩
  rw [hw]
  rfl

theorem partialEnv_wellFormed (i : Nat) :
    (partialEnv.dispatchers i).WellFormed sampleSettings.histogram_nbuckets := by
  have h : ∀ (sent ok failed : Nat) (lat : ℚ),
      (defaultShapeWorker sent ok failed lat).WellFormed sampleSettings.histogram_nbuckets := by
    intro sent ok failed lat
    refine ⟨rfl, ?_, ?_⟩
    · show (_ :: List.replicate DEFAULT_BUCKETS _).length = DEFAULT_BUCKETS + 1
      rw [List.length_cons, List.length_replicate]
    · intro b hb
      have hb' : b ∈ ({ categories := [ok, failed] } :: List.replicate DEFAULT_BUCKETS
          ({ categories := [0, 0] } : histogram_bucket)) := hb
      rcases List.mem_cons.mp hb' with hb1 | hb1
      · rw [hb1]; rfl
      · rw [List.eq_of_mem_replicate hb1]; rfl
  simp only [partialEnv]
  split_ifs
  · exact h _ _ _ _
  · exact h _ _ _ _

theorem failing_worker_does_not_abort_witness :
    ValidConfiguration partialEnv [('n', "4"), ('Q', "10"), ('q', "example.com A")]
      sampleSettings.options sampleSettings ∧
    (∀ i, i < sampleSettings.num_threads →
      (partialEnv.dispatchers i).WellFormed sampleSettings.histogram_nbuckets) ∧
    partialEnv.run 0 = RunOutcome.std_exception "boom" ∧
    (partialEnv.dispatchers 0).getQueriesSent = 2 ∧
    (main partialEnv [('n', "4"), ('Q', "10"), ('q', "example.com A")]).exit_status = some 0 ∧
    (main partialEnv [('n', "4"), ('Q', "10"), ('q', "example.com A")]).threads = [0, 1, 2, 3] ∧
    "Worker thread died unexpectedly: boom" ∈
      (main partialEnv [('n', "4"), ('Q', "10"), ('q', "example.com A")]).worker_cerr ∧
    ∃ rep, (main partialEnv [('n', "4"), ('Q', "10"), ('q', "example.com A")]).report =
        some rep ∧
      rep.result.queries_sent = 17 ∧ rep.result.queries_completed = 13 ∧
      bucketCount rep.result.histogram_buckets 0 0 = 10 :=
  have h := failing_worker_does_not_abort partialEnv
    [('n', "4"), ('Q', "10"), ('q', "example.com A")] sampleSettings.options sampleSettings
    ⟨rfl, rfl, by decide⟩ (fun _ _ => rfl) (fun i _ => partialEnv_wellFormed i)
    (fun i _ => by
      by_cases hi : i = 0
      · exact Or.inr ⟨"boom", by simp [partialEnv, hi]⟩
      · exact Or.inl (by simp [partialEnv, hi]))
  ⟨⟨rfl, rfl, by decide⟩, fun i _ => partialEnv_wellFormed i, rfl, rfl, h.2.2.1, h.2.2.2.1,
    h.2.1 0 "boom" (by decide) rfl,
    match h.2.2.2.2 with
    | ⟨rep, hrep, _, hs, hc, _, _, hb⟩ =>
      ⟨rep, hrep, hs.trans (by decide), hc.trans (by decide),
        (hb 0 0 (by decide) (by decide)).trans (by decide)⟩⟩

/-! ## The percentages -/

theorem size_t_sub_eq (a b : Nat) (hb : b ≤ a) (ha : a < SIZE_MOD) : size_t_sub a b = a - b := by
  unfold size_t_sub
  have h : a + SIZE_MOD - b = (a - b) + SIZE_MOD := by omega
  rw [h, Nat.add_mod_right, Nat.mod_eq_of_lt (by omega)]

/-- C8: in the report of `main`, both `Percentage completed` and `Percentage
lost` are `N/A` exactly when the merged `queries_sent` is 0; when it is
positive the two values are `100 * completed / sent` and `100 * lost_count /
sent` with `lost_count` the `size_t` difference `sent - completed`; and when
`queries_completed <= queries_sent` that difference does not wrap around and
the two percentages add up to 100. -/
theorem report_percentages (env : Env) (s : Settings) (rep : Report)
    (hrep : rep = makeReport env s) :
    (rep.percentage_completed = none ↔ rep.result.queries_sent = 0) ∧
    (rep.percentage_lost = none ↔ rep.result.queries_sent = 0) ∧
    (0 < rep.result.queries_sent →
      rep.percentage_completed =
        some (100 * (rep.result.queries_completed : ℚ) / (rep.result.queries_sent : ℚ)) ∧
      rep.percentage_lost =
        some (100 *
          ((size_t_sub rep.result.queries_sent rep.result.queries_completed : Nat) : ℚ) /
            (rep.result.queries_sent : ℚ))) ∧
    (0 < rep.result.queries_sent → rep.result.queries_completed ≤ rep.result.queries_sent →
      rep.result.queries_sent < SIZE_MOD →
      size_t_sub rep.result.queries_sent rep.result.queries_completed =
        rep.result.queries_sent - rep.result.queries_completed ∧
      ∃ p q, rep.percentage_completed = some p ∧ rep.percentage_lost = some q ∧
        p + q = 100) := by
  subst hrep
  simp only [makeReport]
  generalize accumulateAll s.histogram_nbuckets s.histogram_time
    ((List.range s.num_threads).map env.dispatchers) = result
  unfold percentage_completed percentage_lost lost_count
  refine ⟨?_, ?_, ?_, ?_⟩
  · by_cases h : result.queries_sent > 0
    · simp only [h, if_true]
      constructor
      · intro hcon; exact absurd hcon (by simp)
      · intro hcon; omega
    · simp only [h, if_false, true_iff]
      omega
  · by_cases h : result.queries_sent > 0
    · simp only [h, if_true]
      constructor
      · intro hcon; exact absurd hcon (by simp)
      · intro hcon; omega
    · simp only [h, if_false, true_iff]
      omega
  · intro h
    have h' : result.queries_sent > 0 := h
    simp only [h', if_true, Option.some.injEq]
    constructor <;> ring
  · intro h hle hlt
    have h' : result.queries_sent > 0 := h
    have hsub := size_t_sub_eq _ _ hle hlt
    refine ⟨hsub, _, _, if_pos h', if_pos h', ?_⟩
    rw [hsub, Nat.cast_sub hle]
    have hne : (result.queries_sent : ℚ) ≠ 0 := by
      exact_mod_cast Nat.pos_iff_ne_zero.mp h
    field_simp
    ring

theorem report_percentages_witness :
    0 < (makeReport sampleEnv sampleSettings).result.queries_sent ∧
    (makeReport sampleEnv sampleSettings).result.queries_completed ≤
      (makeReport sampleEnv sampleSettings).result.queries_sent ∧
    (makeReport sampleEnv sampleSettings).result.queries_sent < SIZE_MOD ∧
    ∃ p q, (makeReport sampleEnv sampleSettings).percentage_completed = some p ∧
      (makeReport sampleEnv sampleSettings).percentage_lost = some q ∧ p + q = 100 :=
  ⟨by decide, by decide, by decide,
    ((report_percentages sampleEnv sampleSettings _ rfl).2.2.2 (by decide) (by decide)
      (by decide)).2⟩

/-! ## The EDNS warning -/

theorem warns_eq_true (e d : Bool) : warns e d = true ↔ e = false ∧ d = true := by
  cases e <;> cases d <;> simp [warns]

theorem parseOnOffFlag_eq_false (t : Option String) (h : parseOnOffFlag t true = some false) :
    t = some "off" := by
  cases t with
  | none => simp [parseOnOffFlag] at h
  | some a =>
    unfold parseOnOffFlag at h
    simp only [] at h
    split_ifs at h with h1 h2
    · simp at h
    · rw [h2]

theorem parseOnOffFlag_eq_true (t : Option String) (h : parseOnOffFlag t true = some true) :
    t = none ∨ t = some "on" := by
  cases t with
  | none => exact Or.inl rfl
  | some a =>
    unfold parseOnOffFlag at h
    simp only [] at h
    split_ifs at h with h1 h2
    · rw [h1]; exact Or.inr rfl
    · simp at h

/-- When `main` exits during the validation after having written the warning,
the two flags had been parsed as EDNS off and DO on. -/
theorem validate_error_warned (env : Env) (o : Options)
    (h : validate env o = Except.error true) :
    parseOnOffFlag o.dnssec_flag_txt DEFAULT_DNSSEC = some true ∧
      parseOnOffFlag o.edns_flag_txt DEFAULT_EDNS = some false := by
  unfold validate at h
  simp only [] at h
  split at h
  · exact absurd h (by simp)
  · split at h
    · exact absurd h (by simp)
    · rename_i dn hdn
      split at h
      · exact absurd h (by simp)
      · rename_i ed hed
        have key : warns ed dn = true →
            parseOnOffFlag o.dnssec_flag_txt DEFAULT_DNSSEC = some true ∧
              parseOnOffFlag o.edns_flag_txt DEFAULT_EDNS = some false := by
          intro hw
          obtain ⟨he, hd⟩ := (warns_eq_true ed dn).mp hw
          rw [hdn, hed, he, hd]
          exact ⟨rfl, rfl⟩
        split at h
        · exact key (by simpa using h)
        · split at h
          · exact key (by simpa using h)
          · split at h
            · exact key (by simpa using h)
            · split at h
              · exact key (by simpa using h)
              · split at h
                · exact key (by simpa using h)
                · split at h
                  · exact key (by simpa using h)
                  · split at h
                    · exact key (by simpa using h)
                    · exact absurd h (by simp)

/-- C9, on the code: with `-e off -q "example.com A"` (DO on by default) `main`
writes the warning and returns 0, but the one dispatcher receives
`setEDNS(false)`: not every dispatcher is handed a configuration with EDNS
enabled. -/
theorem edns_off_config_counterexample :
    (main sampleEnv [('e', "off"), ('q', "example.com A")]).warned = true ∧
    (main sampleEnv [('e', "off"), ('q', "example.com A")]).exit_status = some 0 ∧
    (main sampleEnv [('e', "off"), ('q', "example.com A")]).configs.map
      DispatcherConfig.setEDNS = [false] ∧
    ¬ ∀ c ∈ (main sampleEnv [('e', "off"), ('q', "example.com A")]).configs,
      c.setEDNS = true :=
  ⟨by decide, by decide, by decide, by decide⟩

/-- C9 as amended: on a valid configuration with `-e off` and the DO bit on
(`-D on`, or `-D` absent), `main` writes the warning, does not treat it as an
error (when the threads can be created and the workers end without an uncaught
exception it runs all `num_threads` workers and returns 0), and hands the two
flags on unchanged: every dispatcher receives `setEDNS(false)` and
`setDNSSEC(true)`.  The warning is written for no other combination of the two
flags. -/
theorem edns_warning :
    (∀ (env : Env) (opts : List (Char × String)) (o : Options) (s : Settings),
      ValidConfiguration env opts o s → o.edns_flag_txt = some "off" →
      (o.dnssec_flag_txt = none ∨ o.dnssec_flag_txt = some "on") →
      (main env opts).warned = true ∧
      (main env opts).configs.length = s.num_threads ∧
      (∀ c ∈ (main env opts).configs, c.setEDNS = false ∧ c.setDNSSEC = true) ∧
      ((∀ i, i < s.num_threads → env.pthread_create i = 0) →
        (∀ i, i < s.num_threads → env.run i ≠ RunOutcome.other_exception) →
        (main env opts).exit_status = some 0 ∧
          (main env opts).threads = List.range s.num_threads)) ∧
    (∀ (env : Env) (opts : List (Char × String)), (main env opts).warned = true →
      ∃ o, getoptLoop Options.init opts = some o ∧ o.edns_flag_txt = some "off" ∧
        (o.dnssec_flag_txt = none ∨ o.dnssec_flag_txt = some "on")) := by
  constructor
  · intro env opts o s hvalid hedns hdo
    obtain ⟨h1, h2, h3⟩ := hvalid
    obtain ⟨_, g2, g3, _⟩ := validate_ok env o s h2
    have he : s.edns_flag = false := by
      rw [hedns] at g3
      have : parseOnOffFlag (some "off") DEFAULT_EDNS = some false := rfl
      rw [this] at g3
      exact (Option.some.inj g3).symm
    have hd : s.dnssec_flag = true := by
      rcases hdo with hdo | hdo <;> rw [hdo] at g2
      · exact (Option.some.inj g2).symm
      · have : parseOnOffFlag (some "on") DEFAULT_DNSSEC = some true := rfl
        rw [this] at g2
        exact (Option.some.inj g2).symm
    rw [main_eq_mainRun env opts o s h1 h2]
    refine ⟨?_, ?_, ?_, ?_⟩
    · rw [mainRun_warned, he, hd]; rfl
    · rw [mainRun_configs]
      exact (prepare_fold_ok env s s.num_threads h3).2
    · intro c hc
      rw [mainRun_configs] at hc
      obtain ⟨i, _, hi⟩ := prepare_fold_mem env s s.num_threads c hc
      obtain ⟨_, k2, k3, _⟩ := configureDispatcher_some env s i c hi
      exact ⟨k2.trans he, k3.trans hd⟩
    · intro hthr hrun
      obtain ⟨k1, k2, _⟩ := mainRun_ok env s h3 hthr hrun
      exact ⟨k1, k2⟩
  · intro env opts hw
    unfold main at hw
    cases ho : getoptLoop Options.init opts with
    | none => simp [ho] at hw
    | some o =>
      simp only [ho] at hw
      refine ⟨o, rfl, ?_⟩
      cases hv : validate env o with
      | error w =>
        simp only [hv] at hw
        subst hw
        obtain ⟨k1, k2⟩ := validate_error_warned env o hv
        exact ⟨parseOnOffFlag_eq_false _ k2, parseOnOffFlag_eq_true _ k1⟩
      | ok s =>
        simp only [hv] at hw
        rw [mainRun_warned] at hw
        obtain ⟨he, hd⟩ := (warns_eq_true _ _).mp hw
        obtain ⟨_, g2, g3, _⟩ := validate_ok env o s hv
        rw [he] at g3
        rw [hd] at g2
        exact ⟨parseOnOffFlag_eq_false _ g3, parseOnOffFlag_eq_true _ g2⟩

theorem edns_warning_witness :
    ValidConfiguration sampleEnv [('e', "off"), ('q', "example.com A")]
      ednsOffSettings.options ednsOffSettings ∧
    ednsOffSettings.options.edns_flag_txt = some "off" ∧
    (main sampleEnv [('e', "off"), ('q', "example.com A")]).warned = true ∧
    ∀ c ∈ (main sampleEnv [('e', "off"), ('q', "example.com A")]).configs,
      c.setEDNS = false ∧ c.setDNSSEC = true :=
  have h := edns_warning.1 sampleEnv [('e', "off"), ('q', "example.com A")]
    ednsOffSettings.options ednsOffSettings ⟨rfl, rfl, by decide⟩ rfl (Or.inl rfl)
  ⟨⟨rfl, rfl, by decide⟩, rfl, h.1, h.2.2.1⟩

/-! ## The histogram rows -/

theorem foldl_accumulate_histogram_params (ds : List Dispatcher) :
    ∀ r : QueryStatistics,
      (ds.foldl (fun result disp => accumulateResult disp result) r).histogram_nbuckets =
          r.histogram_nbuckets ∧
        (ds.foldl (fun result disp => accumulateResult disp result) r).histogram_bps =
          r.histogram_bps := by
  induction ds with
  | nil => intro r; exact ⟨rfl, rfl⟩
  | cons d ds ih => intro r; exact ih (accumulateResult d r)

/-- The rows of `print_histogram` for the statistics `main` has accumulated
with `N >= 1` buckets over `W >= 1` seconds: `N + 1` rows in index order, row
`i < N` labelled `"< "` with `(i + 1) * W / N`, and row `N` labelled `">="`
with `(N + 1) * W / N`, which is `W + W / N`. -/
theorem print_histogram_rows (nbuckets time : Nat) (ds : List Dispatcher)
    (hN : 1 ≤ nbuckets) (hW : 1 ≤ time) :
    (print_histogram (accumulateAll nbuckets time ds)).length = nbuckets + 1 ∧
    (∀ i, i < nbuckets →
      ((print_histogram (accumulateAll nbuckets time ds))[i]?.map fun row =>
          (row.op, row.time)) =
        some ("< ", ((i : ℚ) + 1) * (time : ℚ) / (nbuckets : ℚ))) ∧
    ((print_histogram (accumulateAll nbuckets time ds))[nbuckets]?.map fun row =>
        (row.op, row.time)) =
      some (">=", (time : ℚ) + (time : ℚ) / (nbuckets : ℚ)) := by
  obtain ⟨h1, h2⟩ := foldl_accumulate_histogram_params ds (QueryStatistics.new nbuckets time)
  have hn : (accumulateAll nbuckets time ds).histogram_nbuckets = nbuckets := h1
  have hb : (accumulateAll nbuckets time ds).histogram_bps = (nbuckets : ℚ) / (time : ℚ) := h2
  have hN0 : nbuckets ≠ 0 := by omega
  have hNq : (nbuckets : ℚ) ≠ 0 := by exact_mod_cast hN0
  have hWq : (time : ℚ) ≠ 0 := by
    have : time ≠ 0 := by omega
    exact_mod_cast this
  unfold print_histogram
  rw [hn, hb, if_neg hN0]
  refine ⟨by simp, ?_, ?_⟩
  · intro i hi
    have hi' : i < nbuckets + 1 := by omega
    have hne : i ≠ nbuckets := by omega
    simp only [List.getElem?_map, List.getElem?_range hi', Option.map_some', if_neg hne,
      Option.some.injEq, Prod.mk.injEq, true_and]
    field_simp
  · simp only [List.getElem?_map, List.getElem?_range (Nat.lt_succ_self nbuckets),
      Option.map_some', if_true, Option.some.injEq, Prod.mk.injEq, true_and]
    field_simp
    ring

/-- C10, evaluated for `-H 1 -T 1` and one worker: two rows in index order, the
first labelled `"< "` with the upper bound 1 of bucket 0, the last labelled
`">="` with 2, not with the window width 1. -/
theorem overflow_row_label :
    ((print_histogram (accumulateAll 1 1 [sampleWorker 5 3 1 (1 / 2)])).map fun row =>
        (row.op, row.time)) = [("< ", 1), (">=", 2)] ∧
    (accumulateAll 1 1 [sampleWorker 5 3 1 (1 / 2)]).histogram_time = 1 := by
  refine ⟨?_, rfl⟩
  simp [print_histogram, accumulateAll, accumulateResult, QueryStatistics.new, List.range_succ]
  norm_num

/-! ## A rate cap below the worker count -/

/-- C11 as amended: on a valid configuration with `n >= 1` workers and the
global rate `Q`, the value every dispatcher receives through `setQPS` is
greater than 0 exactly when `n <= Q`; a positive `Q` below the worker count is
handed on as 0. -/
theorem setQPS_pos_iff (env : Env) (opts : List (Char × String)) (o : Options) (s : Settings)
    (hvalid : ValidConfiguration env opts o s) (hn : 1 ≤ s.num_threads) :
    (∀ c ∈ (main env opts).configs, 0 < c.setQPS) ↔ s.num_threads ≤ s.qps := by
  obtain ⟨h1, h2, h3⟩ := hvalid
  rw [main_eq_mainRun env opts o s h1 h2, mainRun_configs]
  have hlen := (prepare_fold_ok env s s.num_threads h3).2
  have hq : ∀ c ∈ (prepare env s).1, c.setQPS = s.qps / s.num_threads := by
    intro c hc
    obtain ⟨i, _, hi⟩ := prepare_fold_mem env s s.num_threads c hc
    exact (configureDispatcher_some env s i c hi).1
  constructor
  · intro hpos
    have hne : (prepare env s).1 ≠ [] := by
      intro hnil
      have h0 : (prepare env s).1.length = 0 := by rw [hnil]; rfl
      have hlen' : (prepare env s).1.length = s.num_threads := hlen
      omega
    obtain ⟨c, hc⟩ := List.exists_mem_of_ne_nil _ hne
    have hc0 := hpos c hc
    rw [hq c hc] at hc0
    exact (Nat.div_pos_iff (by omega)).mp hc0
  · intro hle c hc
    rw [hq c hc]
    exact Nat.div_pos hle (by omega)

theorem setQPS_pos_iff_witness :
    ValidConfiguration sampleEnv [('n', "4"), ('Q', "10"), ('q', "example.com A")]
      sampleSettings.options sampleSettings ∧
    1 ≤ sampleSettings.num_threads ∧ sampleSettings.num_threads ≤ sampleSettings.qps ∧
    ∀ c ∈ (main sampleEnv [('n', "4"), ('Q', "10"), ('q', "example.com A")]).configs,
      0 < c.setQPS :=
  ⟨⟨rfl, rfl, by decide⟩, by decide, by decide,
    (setQPS_pos_iff sampleEnv [('n', "4"), ('Q', "10"), ('q', "example.com A")]
      sampleSettings.options sampleSettings ⟨rfl, rfl, by decide⟩ (by decide)).mpr
      (by decide)⟩

/-- C11, on the code, for `-n 10 -Q 4 -q "example.com A"`: the global rate 4 is
positive and there are ten workers, `main` runs them and returns 0, and every
one of the ten dispatchers receives `setQPS(0)`, the value the dispatchers also
receive when `-Q` is absent (the default, unlimited): not every per-worker
value is greater than 0. -/
theorem positive_cap_becomes_unlimited :
    sampleEnv.lexical_cast_size_t "4" = some 4 ∧
    (main sampleEnv [('n', "10"), ('Q', "4"), ('q', "example.com A")]).exit_status = some 0 ∧
    (main sampleEnv [('n', "10"), ('Q', "4"), ('q', "example.com A")]).configs.map
      DispatcherConfig.setQPS = List.replicate 10 0 ∧
    (main sampleEnv [('n', "10"), ('q', "example.com A")]).configs.map
      DispatcherConfig.setQPS = List.replicate 10 0 ∧
    ¬ ∀ c ∈ (main sampleEnv [('n', "10"), ('Q', "4"), ('q', "example.com A")]).configs,
      0 < c.setQPS :=
  ⟨by decide, by decide, by decide, by decide, by decide⟩

end Queryperf
